import Mathlib

/-!
Shallow embedding of the dist-txn repository: a distributed money-transfer
saga engine made of a Transaction coordinator service and a Wallet ledger
service, coordinated by events through a transactional outbox.

Conventions of the embedding:
* wall-clock Date values become Nat (milliseconds); every function that calls
  new Date() in the source takes an explicit now parameter;
* uuidv7() calls become explicit fresh-identifier parameters;
* each relational table becomes a List of records; an SQL UPDATE with a WHERE
  clause becomes a map that rewrites exactly the rows matching the predicate,
  and the affected-row count is the length of the filtered list;
* a dataSource.transaction body that throws becomes an Except error, and the
  caller-visible rollback keeps the pre-transaction store;
* monetary amounts are Int (integer minor units), as in the source where they
  are integer-valued numbers.
-/

/-- Ledger entry types, from libs/common/src/constants (LedgerEntryType). -/
inductive LedgerEntryType where
  | DEBIT
  | CREDIT
  | REFUND
deriving DecidableEq, Repr

/-- Transfer saga statuses, from libs/common/src/constants (TransferStatus). -/
inductive TransferStatus where
  | PENDING
  | DEBITED
  | COMPLETED
  | FAILED
deriving DecidableEq, Repr

/-- Outbox event types, from libs/common/src/outbox.ts (OutboxEventType). -/
inductive OutboxEventType where
  | TRANSFER_INITIATED
  | TRANSFER_COMPLETED
  | TRANSFER_FAILED
  | WALLET_DEBITED
  | WALLET_DEBIT_FAILED
  | WALLET_CREDITED
  | WALLET_CREDIT_FAILED
  | WALLET_REFUNDED
deriving DecidableEq, Repr

/-- Aggregate types for outbox entries, from libs/common/src/outbox.ts. -/
inductive OutboxAggregateType where
  | TRANSFER
  | WALLET
deriving DecidableEq, Repr

/-- Maps outbox event types to Kafka topics (OUTBOX_EVENT_TO_TOPIC in
libs/common/src/outbox.ts). -/
def OUTBOX_EVENT_TO_TOPIC : OutboxEventType → String
  | .TRANSFER_INITIATED => "transfer.initiated"
  | .TRANSFER_COMPLETED => "transfer.completed"
  | .TRANSFER_FAILED => "transfer.failed"
  | .WALLET_DEBITED => "wallet.debited"
  | .WALLET_DEBIT_FAILED => "wallet.debit-failed"
  | .WALLET_CREDITED => "wallet.credited"
  | .WALLET_CREDIT_FAILED => "wallet.credit-failed"
  | .WALLET_REFUNDED => "wallet.refunded"

/-- Polling interval for the outbox publisher, libs/common/src/outbox.ts. -/
def OUTBOX_POLLING_INTERVAL_MS : Nat := 50

/-- Default batch size for outbox publishing, libs/common/src/outbox.ts. -/
def OUTBOX_BATCH_SIZE : Nat := 100

/-- Event payloads, from libs/common/src/events.ts. Timestamps are Nat. -/
structure TransferInitiatedEvent where
  transferId : String
  senderWalletId : String
  receiverWalletId : String
  amount : Int
  timestamp : Nat
deriving DecidableEq, Repr

/-- Payload of wallet.debited, libs/common/src/events.ts. -/
structure WalletDebitedEvent where
  transferId : String
  walletId : String
  amount : Int
  receiverWalletId : String
  timestamp : Nat
deriving DecidableEq, Repr

/-- Payload of wallet.debit-failed, libs/common/src/events.ts. -/
structure WalletDebitFailedEvent where
  transferId : String
  walletId : String
  reason : String
  timestamp : Nat
deriving DecidableEq, Repr

/-- Payload of wallet.credited, libs/common/src/events.ts. -/
structure WalletCreditedEvent where
  transferId : String
  walletId : String
  amount : Int
  timestamp : Nat
deriving DecidableEq, Repr

/-- Payload of wallet.credit-failed, libs/common/src/events.ts. -/
structure WalletCreditFailedEvent where
  transferId : String
  walletId : String
  reason : String
  senderWalletId : String
  amount : Int
  timestamp : Nat
deriving DecidableEq, Repr

/-- Payload of wallet.refunded, libs/common/src/events.ts. -/
structure WalletRefundedEvent where
  transferId : String
  walletId : String
  amount : Int
  timestamp : Nat
deriving DecidableEq, Repr

/-- Payload of transfer.completed, libs/common/src/events.ts. -/
structure TransferCompletedEvent where
  transferId : String
  timestamp : Nat
deriving DecidableEq, Repr

/-- Payload of transfer.failed, libs/common/src/events.ts. -/
structure TransferFailedEvent where
  transferId : String
  reason : String
  timestamp : Nat
deriving DecidableEq, Repr

/-- Tagged union of the JSON payloads an outbox record or broker message can
carry (the source stores them as opaque JSON documents). -/
inductive EventPayload where
  | transferInitiated (e : TransferInitiatedEvent)
  | walletDebited (e : WalletDebitedEvent)
  | walletDebitFailed (e : WalletDebitFailedEvent)
  | walletCredited (e : WalletCreditedEvent)
  | walletCreditFailed (e : WalletCreditFailedEvent)
  | walletRefunded (e : WalletRefundedEvent)
  | transferCompleted (e : TransferCompletedEvent)
  | transferFailed (e : TransferFailedEvent)
deriving DecidableEq, Repr

/-- One row of an outbox table (OutboxOrmEntity). -/
structure OutboxRecord where
  id : String
  aggregateType : OutboxAggregateType
  aggregateId : String
  eventType : OutboxEventType
  payload : EventPayload
  createdAt : Nat
  publishedAt : Option Nat
deriving DecidableEq, Repr

/-- A message emitted to the broker (kafkajs producer.send). -/
structure BrokerMessage where
  topic : String
  key : String
  payload : EventPayload
deriving DecidableEq, Repr

/-! ## Wallet service: data model -/

/-- Wallet domain entity, apps/wallet-service/src/domain/entities. -/
structure Wallet where
  walletId : String
  userId : String
  balance : Int
  createdAt : Nat
  updatedAt : Nat
deriving DecidableEq, Repr

/-- Wallet ledger entry, apps/wallet-service/src/domain/entities. -/
structure WalletLedgerEntry where
  entryId : String
  walletId : String
  transactionId : String
  type : LedgerEntryType
  amount : Int
  createdAt : Nat
deriving DecidableEq, Repr

/-- The relational store owned by the wallet service: wallets,
wallet_ledger_entries and its outbox table. -/
structure WalletStore where
  wallets : List Wallet
  ledger : List WalletLedgerEntry
  outbox : List OutboxRecord
deriving DecidableEq, Repr

/-- Input for creating a new outbox entry (CreateOutboxEntry in
libs/common/src/outbox.ts). -/
structure CreateOutboxEntry where
  aggregateType : OutboxAggregateType
  aggregateId : String
  eventType : OutboxEventType
  payload : EventPayload
deriving DecidableEq, Repr

/-- Errors thrown inside updateBalanceWithLedger
(wallet.repository.impl.ts). -/
inductive WalletError where
  | walletNotFound (walletId : String)
  | insufficientBalance (current required : Int)
  | walletDisappeared (walletId : String)
deriving DecidableEq, Repr

/-- Error messages as produced by the throw sites in
wallet.repository.impl.ts. -/
def walletErrorMessage : WalletError → String
  | .walletNotFound walletId => "Wallet not found: " ++ walletId
  | .insufficientBalance current required =>
      "Insufficient balance: current=" ++ toString current ++ ", required=" ++ toString required
  | .walletDisappeared walletId => "Wallet disappeared after update: " ++ walletId

/-- Result of the ledger apply operation (DebitCreditResult in
wallet.repository.ts). The wallet is Option because the duplicate branch
returns whatever findOne produced, which can be null. -/
structure DebitCreditResult where
  wallet : Option Wallet
  ledgerEntry : WalletLedgerEntry
  isDuplicate : Bool
deriving DecidableEq, Repr

/-- findOne({ where: { walletId } }) on the wallets table. -/
def findWallet (st : WalletStore) (walletId : String) : Option Wallet :=
  st.wallets.find? (fun w => w.walletId == walletId)

/-- findOne({ where: { walletId, transactionId } }) on the ledger table. -/
def findLedgerEntry (st : WalletStore) (walletId transactionId : String) :
    Option WalletLedgerEntry :=
  st.ledger.find? (fun e => e.walletId == walletId && e.transactionId == transactionId)

/-- Row predicate of the guarded balance UPDATE in updateBalanceWithLedger:
for a debit the WHERE clause is wallet_id = :walletId AND balance >= :amount,
otherwise just wallet_id = :walletId. -/
def guardMatches (walletId : String) (amount : Int) (isDebit : Bool) (w : Wallet) : Bool :=
  w.walletId == walletId && (!isDebit || decide (amount ≤ w.balance))

/-- Effect of the guarded balance UPDATE on a matched row: balance - amount
for a debit, balance + amount otherwise, and updatedAt is refreshed. -/
def guardedSet (amount : Int) (isDebit : Bool) (now : Nat) (w : Wallet) : Wallet :=
  { w with balance := if isDebit then w.balance - amount else w.balance + amount
           updatedAt := now }

/-- The guarded relative UPDATE of wallet.repository.impl.ts lines 83-98:
returns the updated wallets table and the affected-row count. -/
def guardedBalanceUpdate (st : WalletStore) (walletId : String) (amount : Int)
    (isDebit : Bool) (now : Nat) : List Wallet × Nat :=
  (st.wallets.map (fun w => if guardMatches walletId amount isDebit w
                            then guardedSet amount isDebit now w else w),
   (st.wallets.filter (guardMatches walletId amount isDebit)).length)

/-- Ledger apply operation: updateBalanceWithLedger of
wallet.repository.impl.ts lines 51-155, executed in one database
transaction. An error result models a throw (the transaction rolls back). -/
def updateBalanceWithLedger (st : WalletStore) (walletId transactionId : String)
    (amount : Int) (entryType : LedgerEntryType) (outboxEntry : Option CreateOutboxEntry)
    (freshEntryId freshOutboxId : String) (now : Nat) :
    Except WalletError (WalletStore × DebitCreditResult) :=
  match findLedgerEntry st walletId transactionId with
  | some existingEntry =>
      -- idempotency short-circuit: return existing entry, current wallet, no writes
      .ok (st, { wallet := findWallet st walletId
                 ledgerEntry := existingEntry
                 isDuplicate := true })
  | none =>
      let isDebit := entryType == LedgerEntryType.DEBIT
      let updated := guardedBalanceUpdate st walletId amount isDebit now
      if updated.2 = 1 then
        let entry : WalletLedgerEntry :=
          { entryId := freshEntryId, walletId := walletId, transactionId := transactionId
            type := entryType, amount := amount, createdAt := now }
        let st2 : WalletStore :=
          { wallets := updated.1, ledger := st.ledger ++ [entry], outbox := st.outbox }
        let st3 : WalletStore :=
          match outboxEntry with
          | some ob =>
              { st2 with outbox := st2.outbox ++
                  [{ id := freshOutboxId, aggregateType := ob.aggregateType
                     aggregateId := ob.aggregateId, eventType := ob.eventType
                     payload := ob.payload, createdAt := now, publishedAt := none }] }
          | none => st2
        match findWallet st3 walletId with
        | none => .error (.walletDisappeared walletId)
        | some updatedWallet =>
            .ok (st3, { wallet := some updatedWallet, ledgerEntry := entry
                        isDuplicate := false })
      else
        -- distinguish wallet-not-found from insufficient balance, reading the
        -- transaction-local wallets table after the failed update
        match (WalletStore.mk updated.1 st.ledger st.outbox).wallets.find?
            (fun w => w.walletId == walletId) with
        | none => .error (.walletNotFound walletId)
        | some w => .error (.insufficientBalance w.balance amount)

/-- Post-state of a ledger apply as seen by later operations: on success the
committed store, on a throw the rolled-back original store. -/
def applyLedgerOp (st : WalletStore) (walletId transactionId : String) (amount : Int)
    (entryType : LedgerEntryType) (outboxEntry : Option CreateOutboxEntry)
    (freshEntryId freshOutboxId : String) (now : Nat) : WalletStore :=
  match updateBalanceWithLedger st walletId transactionId amount entryType outboxEntry
      freshEntryId freshOutboxId now with
  | .ok (st1, _) => st1
  | .error _ => st

/-- WalletService.createWallet (wallet.service.ts lines 26-45): reject when a
wallet for the user exists, otherwise save a wallet with balance 0. -/
def createWallet (st : WalletStore) (userId walletId : String) (now : Nat) :
    Except String (WalletStore × Wallet) :=
  if st.wallets.any (fun w => w.userId == userId) then
    .error "Wallet already exists for this user"
  else
    let w : Wallet := { walletId := walletId, userId := userId, balance := 0
                        createdAt := now, updatedAt := now }
    .ok ({ st with wallets := st.wallets ++ [w] }, w)

/-- One wallet-service store operation: a wallet creation or a ledger apply. -/
inductive WalletOp where
  | create (userId walletId : String) (now : Nat)
  | ledgerApply (walletId transactionId : String) (amount : Int)
      (entryType : LedgerEntryType) (outboxEntry : Option CreateOutboxEntry)
      (freshEntryId freshOutboxId : String) (now : Nat)
deriving DecidableEq, Repr

/-- Store after running one wallet operation (errors roll back). -/
def stepWallet (st : WalletStore) (op : WalletOp) : WalletStore :=
  match op with
  | .create userId walletId now =>
      match createWallet st userId walletId now with
      | .ok (st1, _) => st1
      | .error _ => st
  | .ledgerApply walletId transactionId amount entryType outboxEntry fe fo now =>
      applyLedgerOp st walletId transactionId amount entryType outboxEntry fe fo now

/-- The amount carried by a ledger-apply operation is positive (wallet
creation carries no amount). The saga only ever applies amounts that passed
the CreateTransferDto Min(1) validation. -/
def walletOpAmountPos : WalletOp → Bool
  | .create _ _ _ => true
  | .ledgerApply _ _ amount _ _ _ _ _ => decide (0 < amount)

/-- Invariant of claim C1: every wallet balance is non-negative. -/
abbrev nonNegBalances (st : WalletStore) : Prop :=
  ∀ w ∈ st.wallets, 0 ≤ w.balance

/-! ## Transaction service: data model -/

/-- Transfer saga record, apps/transaction-service/src/domain/entities. -/
structure Transfer where
  transferId : String
  senderWalletId : String
  receiverWalletId : String
  amount : Int
  status : TransferStatus
  failureReason : Option String
  timeoutAt : Nat
  createdAt : Nat
  updatedAt : Nat
deriving DecidableEq, Repr

/-- The relational store owned by the transaction service (transfers and its
outbox table), together with the stream of messages this service has sent
directly to the broker; the outbox write path never touches the broker. -/
structure TransferStore where
  transfers : List Transfer
  outbox : List OutboxRecord
  broker : List BrokerMessage
deriving DecidableEq, Repr

/-- WHERE clause of every saga status update:
transfer_id = :transferId AND status = :expectedStatus. -/
def matchesTransfer (transferId : String) (expected : TransferStatus) (t : Transfer) : Bool :=
  t.transferId == transferId && t.status == expected

/-- SET clause of a saga status update: status, failureReason (null when the
caller passes none) and updatedAt. -/
def applyStatusSet (newStatus : TransferStatus) (failureReason : Option String) (now : Nat)
    (transferId : String) (expected : TransferStatus) (t : Transfer) : Transfer :=
  if matchesTransfer transferId expected t then
    { t with status := newStatus, failureReason := failureReason, updatedAt := now }
  else t

/-- The conditional UPDATE shared by transfer.repository.impl.ts
updateStatus and the inlined updates of kafka.event-handler.ts and the
timeout scanner: rewrites the matching rows and reports the affected count. -/
def conditionalStatusUpdate (ts : List Transfer) (transferId : String)
    (expected newStatus : TransferStatus) (failureReason : Option String) (now : Nat) :
    List Transfer × Nat :=
  (ts.map (applyStatusSet newStatus failureReason now transferId expected),
   (ts.filter (matchesTransfer transferId expected)).length)

/-- TransferRepositoryImpl.updateStatus (transfer.repository.impl.ts lines
39-74): conditional update; affected 0 means no observable effect. -/
def repositoryUpdateStatus (st : TransferStore) (transferId : String)
    (expected newStatus : TransferStatus) (failureReason : Option String) (now : Nat) :
    TransferStore × Bool :=
  let updated := conditionalStatusUpdate st.transfers transferId expected newStatus failureReason now
  ({ st with transfers := updated.1 }, 0 < updated.2)

/-- KafkaEventHandler.updateTransferStatus (transaction-service
kafka.event-handler.ts lines 143-164): conditional update, no outbox. -/
def updateTransferStatus (st : TransferStore) (transferId : String)
    (expected newStatus : TransferStatus) (failureReason : Option String) (now : Nat) :
    TransferStore × Bool :=
  let updated := conditionalStatusUpdate st.transfers transferId expected newStatus failureReason now
  ({ st with transfers := updated.1 }, 0 < updated.2)

/-- KafkaEventHandler.updateStatusWithOutbox (transaction-service
kafka.event-handler.ts lines 169-213): in one database transaction, run the
conditional status update and, only when a row was actually updated, append
the outbox record of the resulting event. -/
def updateStatusWithOutbox (st : TransferStore) (transferId : String)
    (expected newStatus : TransferStatus) (failureReason : Option String)
    (eventType : OutboxEventType) (eventPayload : EventPayload) (now : Nat)
    (freshId : String) : TransferStore :=
  let updated := conditionalStatusUpdate st.transfers transferId expected newStatus failureReason now
  if 0 < updated.2 then
    { st with transfers := updated.1
              outbox := st.outbox ++
                [{ id := freshId, aggregateType := OutboxAggregateType.TRANSFER
                   aggregateId := transferId, eventType := eventType
                   payload := eventPayload, createdAt := now, publishedAt := none }] }
  else
    { st with transfers := updated.1 }

/-- Coordinator handler for wallet.debited: PENDING to DEBITED, no outbox
(kafka.event-handler.ts lines 32-47). -/
def handleWalletDebitedCoord (st : TransferStore) (event : WalletDebitedEvent) (now : Nat) :
    TransferStore :=
  (updateTransferStatus st event.transferId TransferStatus.PENDING TransferStatus.DEBITED
    none now).1

/-- Coordinator handler for wallet.debit-failed: PENDING to FAILED plus
outbox transfer.failed (kafka.event-handler.ts lines 49-73). -/
def handleWalletDebitFailedCoord (st : TransferStore) (event : WalletDebitFailedEvent)
    (now : Nat) (freshId : String) : TransferStore :=
  updateStatusWithOutbox st event.transferId TransferStatus.PENDING TransferStatus.FAILED
    (some event.reason) OutboxEventType.TRANSFER_FAILED
    (.transferFailed { transferId := event.transferId, reason := event.reason, timestamp := now })
    now freshId

/-- Coordinator handler for wallet.credited: DEBITED to COMPLETED plus
outbox transfer.completed (kafka.event-handler.ts lines 75-98). -/
def handleWalletCreditedCoord (st : TransferStore) (event : WalletCreditedEvent)
    (now : Nat) (freshId : String) : TransferStore :=
  updateStatusWithOutbox st event.transferId TransferStatus.DEBITED TransferStatus.COMPLETED
    none OutboxEventType.TRANSFER_COMPLETED
    (.transferCompleted { transferId := event.transferId, timestamp := now })
    now freshId

/-- Coordinator handler for wallet.credit-failed: DEBITED to FAILED plus
outbox transfer.failed (kafka.event-handler.ts lines 100-126). -/
def handleWalletCreditFailedCoord (st : TransferStore) (event : WalletCreditFailedEvent)
    (now : Nat) (freshId : String) : TransferStore :=
  updateStatusWithOutbox st event.transferId TransferStatus.DEBITED TransferStatus.FAILED
    (some event.reason) OutboxEventType.TRANSFER_FAILED
    (.transferFailed { transferId := event.transferId, reason := event.reason, timestamp := now })
    now freshId

/-- Failure reason written by the scanner for a stuck PENDING transfer
(SagaTimeoutService.handleStuckPending). -/
def stuckPendingReason : String :=
  "Saga timeout: debit not processed within timeout period"

/-- Failure reason written by the scanner for a stuck DEBITED transfer
(SagaTimeoutService.handleStuckDebited). -/
def stuckDebitedReason : String :=
  "Saga timeout: credit not processed within timeout period"

/-- SagaTimeoutService.handleStuckPending: in one transaction, conditional
PENDING to FAILED and, only if a row was updated, outbox transfer.failed. -/
def handleStuckPending (st : TransferStore) (transferId : String) (now : Nat)
    (freshId : String) : TransferStore :=
  let updated := conditionalStatusUpdate st.transfers transferId TransferStatus.PENDING
    TransferStatus.FAILED (some stuckPendingReason) now
  if 0 < updated.2 then
    { st with transfers := updated.1
              outbox := st.outbox ++
                [{ id := freshId, aggregateType := OutboxAggregateType.TRANSFER,
                   aggregateId := transferId, eventType := OutboxEventType.TRANSFER_FAILED,
                   payload := .transferFailed { transferId := transferId,
                                                reason := stuckPendingReason, timestamp := now },
                   createdAt := now, publishedAt := none }] }
  else
    { st with transfers := updated.1 }

/-- The transfer.failed outbox record appended by handleStuckDebited. -/
def stuckDebitedFailedRecord (transferId : String) (now : Nat) (freshId : String) :
    OutboxRecord :=
  { id := freshId, aggregateType := OutboxAggregateType.TRANSFER
    aggregateId := transferId, eventType := OutboxEventType.TRANSFER_FAILED
    payload := .transferFailed { transferId := transferId
                                 reason := stuckDebitedReason, timestamp := now }
    createdAt := now, publishedAt := none }

/-- The synthetic wallet.credit-failed outbox record appended by
handleStuckDebited to drive the refund compensation. -/
def stuckDebitedCompensationRecord (transferId senderWalletId receiverWalletId : String)
    (amount : Int) (now : Nat) (freshId : String) : OutboxRecord :=
  { id := freshId, aggregateType := OutboxAggregateType.TRANSFER
    aggregateId := transferId, eventType := OutboxEventType.WALLET_CREDIT_FAILED
    payload := .walletCreditFailed { transferId := transferId, walletId := receiverWalletId
                                     reason := "Saga timeout: triggering compensation"
                                     senderWalletId := senderWalletId, amount := amount
                                     timestamp := now }
    createdAt := now, publishedAt := none }

/-- SagaTimeoutService.handleStuckDebited (unnamed/part_009 lines 165-248):
in one transaction, conditional DEBITED to FAILED and, only if a row was
updated, outbox transfer.failed plus outbox wallet.credit-failed. -/
def handleStuckDebited (st : TransferStore) (transferId senderWalletId receiverWalletId : String)
    (amount : Int) (now : Nat) (freshId1 freshId2 : String) : TransferStore :=
  let updated := conditionalStatusUpdate st.transfers transferId TransferStatus.DEBITED
    TransferStatus.FAILED (some stuckDebitedReason) now
  if 0 < updated.2 then
    { st with transfers := updated.1
              outbox := st.outbox ++
                [stuckDebitedFailedRecord transferId now freshId1,
                 stuckDebitedCompensationRecord transferId senderWalletId receiverWalletId
                   amount now freshId2] }
  else
    { st with transfers := updated.1 }

/-- One stuck transfer as returned by findStuckTransfers
(transfer.repository.ts StuckTransfer). -/
structure StuckTransfer where
  transfer : Transfer
  receiverWalletId : String
  amount : Int
deriving DecidableEq, Repr

/-- TransferRepositoryImpl.findStuckTransfers (lines 76-94): transfers with
status in (PENDING, DEBITED) and timeoutAt < now, ordered by timeoutAt
ascending, up to the limit (default 100). -/
def findStuckTransfers (st : TransferStore) (now : Nat) (limit : Nat) : List StuckTransfer :=
  (((st.transfers.filter (fun t =>
        (t.status == TransferStatus.PENDING || t.status == TransferStatus.DEBITED)
          && decide (t.timeoutAt < now))).mergeSort
      (fun a b => a.timeoutAt ≤ b.timeoutAt)).take limit).map
    (fun t => { transfer := t, receiverWalletId := t.receiverWalletId, amount := t.amount })

/-- Default saga timeout in milliseconds (unnamed/part_007 line 27). -/
def DEFAULT_SAGA_TIMEOUT_MS : Nat := 60000

/-- TransferService.createTransfer (unnamed/part_007 lines 45-102): in one
database transaction, insert the PENDING transfer with
timeoutAt = now + sagaTimeoutMs and the transfer.initiated outbox record;
return the saved transfer (the response DTO copies its fields). -/
def createTransfer (st : TransferStore) (senderWalletId receiverWalletId : String)
    (amount : Int) (sagaTimeoutMs : Nat) (now : Nat)
    (freshTransferId freshOutboxId : String) : TransferStore × Transfer :=
  let timeoutAt := now + sagaTimeoutMs
  let event : TransferInitiatedEvent :=
    { transferId := freshTransferId, senderWalletId := senderWalletId
      receiverWalletId := receiverWalletId, amount := amount, timestamp := now }
  let transfer : Transfer :=
    { transferId := freshTransferId, senderWalletId := senderWalletId
      receiverWalletId := receiverWalletId, amount := amount
      status := TransferStatus.PENDING, failureReason := none
      timeoutAt := timeoutAt, createdAt := now, updatedAt := now }
  let outboxEntry : OutboxRecord :=
    { id := freshOutboxId, aggregateType := OutboxAggregateType.TRANSFER
      aggregateId := freshTransferId, eventType := OutboxEventType.TRANSFER_INITIATED
      payload := .transferInitiated event, createdAt := now, publishedAt := none }
  ({ st with transfers := st.transfers ++ [transfer]
             outbox := st.outbox ++ [outboxEntry] },
   transfer)

/-! ## Outbox polling publisher (unnamed/part_020, OutboxPublisherService) -/

/-- Selection step of processOutbox: rows with published_at IS NULL, ordered
by created_at ascending, limited to OUTBOX_BATCH_SIZE. -/
def selectOutboxBatch (outbox : List OutboxRecord) : List OutboxRecord :=
  ((outbox.filter (fun e => e.publishedAt == none)).mergeSort
    (fun a b => a.createdAt ≤ b.createdAt)).take OUTBOX_BATCH_SIZE

/-- OutboxPublisherService.processOutbox (unnamed/part_020 lines 53-98),
with emission success abstracted by the publishOk oracle (publishEntry may
throw per entry; failures are skipped and retried on a later tick): selects
the unpublished batch, emits each entry whose publish succeeds to the broker
on the topic mapped from its event type with the aggregateId as key, then
marks exactly the successfully emitted records published in one bulk
update. -/
def processOutbox (outbox : List OutboxRecord) (broker : List BrokerMessage)
    (publishOk : String → Bool) (now : Nat) : List OutboxRecord × List BrokerMessage :=
  let entries := selectOutboxBatch outbox
  if entries.isEmpty then (outbox, broker)
  else
    let publishedEntries := entries.filter (fun e => publishOk e.id)
    let broker1 := broker ++ publishedEntries.map (fun e =>
      { topic := OUTBOX_EVENT_TO_TOPIC e.eventType, key := e.aggregateId
        payload := e.payload })
    let publishedIds := publishedEntries.map (fun e => e.id)
    let outbox1 :=
      if 0 < publishedIds.length then
        outbox.map (fun e => if publishedIds.contains e.id
                             then { e with publishedAt := some now } else e)
      else outbox
    (outbox1, broker1)

/-! ## Refund transaction id: uuid v5 over SHA-1 (libs/common/src/utils.ts)

The uuid library computes a v5 UUID as the SHA-1 digest of the namespace
bytes followed by the UTF-8 bytes of the name, with the version nibble
forced to 5 and the variant bits forced to 10, rendered in the canonical
8-4-4-4-12 lowercase hex form. The arithmetic is Nat with explicit masking
to 32 bits. -/

/-- Truncate to a 32-bit word. -/
def w32 (n : Nat) : Nat := n % 4294967296

/-- Rotate a 32-bit word left by s bits. -/
def rotl32 (n s : Nat) : Nat := w32 ((n <<< s) ||| (n >>> (32 - s)))

/-- Bitwise complement of a 32-bit word. -/
def compl32 (n : Nat) : Nat := 4294967295 ^^^ n

/-- UTF-8 bytes of one character. -/
def encodeCharUtf8 (c : Char) : List Nat :=
  let n := c.toNat
  if n < 128 then [n]
  else if n < 2048 then [192 ||| (n >>> 6), 128 ||| (n &&& 63)]
  else if n < 65536 then
    [224 ||| (n >>> 12), 128 ||| ((n >>> 6) &&& 63), 128 ||| (n &&& 63)]
  else
    [240 ||| (n >>> 18), 128 ||| ((n >>> 12) &&& 63), 128 ||| ((n >>> 6) &&& 63),
     128 ||| (n &&& 63)]

/-- UTF-8 bytes of a string. -/
def utf8Bytes (s : String) : List Nat := s.data.flatMap encodeCharUtf8

/-- Numeric value of a hex digit character (0 for non-hex input). -/
def hexVal (c : Char) : Nat :=
  if 48 ≤ c.toNat && c.toNat ≤ 57 then c.toNat - 48
  else if 97 ≤ c.toNat && c.toNat ≤ 102 then c.toNat - 87
  else if 65 ≤ c.toNat && c.toNat ≤ 70 then c.toNat - 55
  else 0

/-- Bytes from a list of hex digit characters, two digits per byte. -/
def hexPairs : List Char → List Nat
  | c1 :: c2 :: rest => (16 * hexVal c1 + hexVal c2) :: hexPairs rest
  | _ => []

/-- Parse a canonical UUID string into its 16 bytes (uuid parse). -/
def parseUuidBytes (s : String) : List Nat :=
  hexPairs (s.data.filter (fun c => c ≠ '-'))

/-- Big-endian bytes of a 64-bit length. -/
def be64 (n : Nat) : List Nat :=
  [n >>> 56 % 256, n >>> 48 % 256, n >>> 40 % 256, n >>> 32 % 256,
   n >>> 24 % 256, n >>> 16 % 256, n >>> 8 % 256, n % 256]

/-- Big-endian bytes of a 32-bit word. -/
def be32 (n : Nat) : List Nat :=
  [n >>> 24 % 256, n >>> 16 % 256, n >>> 8 % 256, n % 256]

/-- SHA-1 padding: append 0x80, zeros to 56 mod 64, and the bit length. -/
def sha1Pad (msg : List Nat) : List Nat :=
  let zeros := (120 - ((msg.length + 1) % 64)) % 64
  msg ++ [128] ++ List.replicate zeros 0 ++ be64 (8 * msg.length)

/-- Split a byte list into chunks of 64. -/
def chunks64 (l : List Nat) : List (List Nat) :=
  if l = [] then []
  else (l.take 64) :: chunks64 (l.drop 64)
termination_by l.length
decreasing_by
  simp only [List.length_drop]
  rename_i h
  have : 0 < l.length := List.length_pos.mpr h
  omega

/-- Fold 4 consecutive bytes into big-endian 32-bit words. -/
def bytesToWords : List Nat → List Nat
  | b0 :: b1 :: b2 :: b3 :: rest =>
      (((b0 <<< 24) ||| (b1 <<< 16)) ||| ((b2 <<< 8) ||| b3)) :: bytesToWords rest
  | _ => []

/-- SHA-1 message schedule: extend the 16 block words to 80. -/
def sha1Schedule (block : List Nat) : Array Nat :=
  (List.range 64).foldl
    (fun w i =>
      let j := i + 16
      w.push (rotl32 (((w.getD (j - 3) 0) ^^^ (w.getD (j - 8) 0)) ^^^
        ((w.getD (j - 14) 0) ^^^ (w.getD (j - 16) 0))) 1))
    (bytesToWords block).toArray

/-- The five SHA-1 chaining words. -/
structure Sha1State where
  h0 : Nat
  h1 : Nat
  h2 : Nat
  h3 : Nat
  h4 : Nat
deriving DecidableEq, Repr

/-- SHA-1 round function and constant for round i. -/
def sha1FK (i b c d : Nat) : Nat × Nat :=
  if i < 20 then ((b &&& c) ||| ((compl32 b) &&& d), 1518500249)
  else if i < 40 then ((b ^^^ c) ^^^ d, 1859775393)
  else if i < 60 then (((b &&& c) ||| (b &&& d)) ||| (c &&& d), 2400959708)
  else ((b ^^^ c) ^^^ d, 3395469782)

/-- Process one 64-byte block. -/
def sha1Block (st : Sha1State) (block : List Nat) : Sha1State :=
  let w := sha1Schedule block
  let final := (List.range 80).foldl
    (fun (t : Nat × Nat × Nat × Nat × Nat) i =>
      let (a, b, c, d, e) := t
      let fk := sha1FK i b c d
      let temp := w32 (rotl32 a 5 + fk.1 + e + fk.2 + w.getD i 0)
      (temp, a, rotl32 b 30, c, d))
    (st.h0, st.h1, st.h2, st.h3, st.h4)
  { h0 := w32 (st.h0 + final.1), h1 := w32 (st.h1 + final.2.1)
    h2 := w32 (st.h2 + final.2.2.1), h3 := w32 (st.h3 + final.2.2.2.1)
    h4 := w32 (st.h4 + final.2.2.2.2) }

/-- Initial SHA-1 state. -/
def sha1Init : Sha1State :=
  { h0 := 1732584193, h1 := 4023233417, h2 := 2562383102, h3 := 271733878
    h4 := 3285377520 }

/-- Digest bytes of a final SHA-1 state. -/
def sha1Out (st : Sha1State) : List Nat :=
  be32 st.h0 ++ be32 st.h1 ++ be32 st.h2 ++ be32 st.h3 ++ be32 st.h4

/-- SHA-1 of a byte list. -/
def sha1 (msg : List Nat) : List Nat :=
  sha1Out ((chunks64 (sha1Pad msg)).foldl sha1Block sha1Init)

/-- Lowercase hex digit character. -/
def hexDigit (n : Nat) : Char :=
  if n < 10 then Char.ofNat (48 + n) else Char.ofNat (87 + n)

/-- Two lowercase hex characters of one byte. -/
def byteHexChars (b : Nat) : List Char :=
  [hexDigit (b / 16 % 16), hexDigit (b % 16)]

/-- Force the version nibble of byte 6 to 5 and the variant bits of byte 8
to the RFC 4122 variant, as the uuid v5 builder does. -/
def setVersionVariant (b : List Nat) : List Nat :=
  let b1 := b.set 6 (((b.getD 6 0) &&& 15) ||| 80)
  b1.set 8 (((b1.getD 8 0) &&& 63) ||| 128)

/-- Canonical 8-4-4-4-12 lowercase string of 16 UUID bytes, reading the
bytes by index as the uuid unparse routine does. -/
def stringifyUuid (bs : List Nat) : String :=
  String.mk (byteHexChars (bs.getD 0 0) ++ (byteHexChars (bs.getD 1 0) ++
    (byteHexChars (bs.getD 2 0) ++ (byteHexChars (bs.getD 3 0) ++ (['-'] ++
    (byteHexChars (bs.getD 4 0) ++ (byteHexChars (bs.getD 5 0) ++ (['-'] ++
    (byteHexChars (bs.getD 6 0) ++ (byteHexChars (bs.getD 7 0) ++ (['-'] ++
    (byteHexChars (bs.getD 8 0) ++ (byteHexChars (bs.getD 9 0) ++ (['-'] ++
    (byteHexChars (bs.getD 10 0) ++ (byteHexChars (bs.getD 11 0) ++
    (byteHexChars (bs.getD 12 0) ++ (byteHexChars (bs.getD 13 0) ++
    (byteHexChars (bs.getD 14 0) ++ byteHexChars (bs.getD 15 0))))))))))))))))))))

/-- UUID version 5 of a name under a namespace UUID: SHA-1 of the namespace
bytes followed by the UTF-8 name bytes, with version and variant forced. -/
def uuidv5 (name : String) (namespaceUuid : String) : String :=
  stringifyUuid (setVersionVariant
    ((sha1 (parseUuidBytes namespaceUuid ++ utf8Bytes name)).take 16))

/-- Namespace UUID for refund transaction ids (libs/common/src/utils.ts,
the DNS namespace). -/
def REFUND_NAMESPACE : String := "6ba7b810-9dad-11d1-80b4-00c04fd430c8"

/-- generateRefundTransactionId (libs/common/src/utils.ts lines 20-22). -/
def generateRefundTransactionId (transferId : String) : String :=
  uuidv5 ("refund:" ++ transferId) REFUND_NAMESPACE

/-! ## Wallet service: refund retry, dead letters and admin replay -/

/-- Status of a dead letter entry (dead-letter.entity.ts). -/
inductive DeadLetterStatus where
  | PENDING
  | PROCESSED
  | FAILED
deriving DecidableEq, Repr

/-- A dead letter row (dead-letter.entity.ts). -/
structure DeadLetter where
  id : String
  originalTopic : String
  originalPayload : EventPayload
  errorMessage : String
  errorStack : Option String
  attemptCount : Nat
  firstAttemptAt : Nat
  lastAttemptAt : Nat
  status : DeadLetterStatus
  processedAt : Option Nat
  createdAt : Nat
deriving DecidableEq, Repr

/-- Retry configuration for compensation operations (RETRY_CONFIG in
wallet-service kafka.event-handler.ts lines 37-44): exponential backoff with
no error filter, so every thrown error is retried. -/
structure RetryConfig where
  maxAttempts : Nat
  backOff : Nat
  multiplier : Nat
  maxInterval : Nat
deriving DecidableEq, Repr

/-- The literal RETRY_CONFIG of the source. -/
def RETRY_CONFIG : RetryConfig :=
  { maxAttempts := 3, backOff := 100, multiplier := 2, maxInterval := 2000 }

/-- Backoff delay before the i-th retry (typescript-retry-decorator
exponential policy: backOff times multiplier per retry, capped at
maxInterval). -/
def retryDelay (cfg : RetryConfig) (i : Nat) : Nat :=
  min (cfg.backOff * cfg.multiplier ^ i) cfg.maxInterval

/-- An error escaping one refund attempt: either a business error thrown by
the guarded ledger update, or a transient store error injected by the
environment (not representable inside the pure store). -/
inductive RefundError where
  | business (e : WalletError)
  | transientErr (msg : String)
deriving DecidableEq, Repr

/-- Message of a refund-attempt error, as carried by the thrown Error. -/
def refundErrorMessage : RefundError → String
  | .business e => walletErrorMessage e
  | .transientErr msg => msg

/-- Environment of one refund attempt: the store either throws a transient
error or executes the operation. -/
inductive AttemptEnv where
  | transient (msg : String)
  | normal
deriving DecidableEq, Repr

/-- The retry loop of the Retryable decorator with RETRY_CONFIG: run the
attempt; on any error, retry while retries remain, then rethrow the last
error. Returns the result together with the number of executions
performed. RETRY_CONFIG sets no doRetry filter and no error-class list, so
no error kind is excluded from retrying. -/
def retryRun (outcomes : Nat → Except RefundError α) :
    Nat → Nat → Except RefundError α × Nat
  | attemptIdx, retriesLeft =>
    match outcomes attemptIdx with
    | .ok a => (.ok a, attemptIdx + 1)
    | .error e =>
      match retriesLeft with
      | 0 => (.error e, attemptIdx + 1)
      | n + 1 => retryRun outcomes (attemptIdx + 1) n

/-- The refund transaction id computed by performRefundWithRetry
(wallet-service kafka.event-handler.ts line 230). -/
def refundTxnIdRetryPath (transferId : String) : String :=
  generateRefundTransactionId transferId

/-- The refund transaction id computed by the DLQ replay path
(dlq.controller.ts line 138). -/
def refundTxnIdReplayPath (transferId : String) : String :=
  generateRefundTransactionId transferId

/-- One refund attempt (body of performRefundWithRetry, wallet-service
kafka.event-handler.ts lines 224-253): apply the REFUND to the sender wallet
under the deterministic refund transaction id, writing the wallet.refunded
outbox record in the same transaction. -/
def attemptRefund (wst : WalletStore) (event : WalletCreditFailedEvent)
    (env : AttemptEnv) (freshEntryId freshOutboxId : String) (now : Nat) :
    Except RefundError (WalletStore × DebitCreditResult) :=
  match env with
  | .transient msg => .error (.transientErr msg)
  | .normal =>
    match updateBalanceWithLedger wst event.senderWalletId
        (refundTxnIdRetryPath event.transferId) event.amount LedgerEntryType.REFUND
        (some { aggregateType := OutboxAggregateType.WALLET
                aggregateId := event.transferId
                eventType := OutboxEventType.WALLET_REFUNDED
                payload := .walletRefunded { transferId := event.transferId
                                             walletId := event.senderWalletId
                                             amount := event.amount, timestamp := now } })
        freshEntryId freshOutboxId now with
    | .ok r => .ok r
    | .error werr => .error (.business werr)

/-- performRefundWithRetry wrapped in the Retryable decorator: the initial
attempt plus up to RETRY_CONFIG.maxAttempts retries. The environment oracle
says which attempts hit a transient store failure. -/
def performRefundWithRetry (wst : WalletStore) (event : WalletCreditFailedEvent)
    (envs : Nat → AttemptEnv) (freshEntryId freshOutboxId : String) (now : Nat) :
    Except RefundError (WalletStore × DebitCreditResult) × Nat :=
  retryRun (fun i => attemptRefund wst event (envs i) freshEntryId freshOutboxId now)
    0 RETRY_CONFIG.maxAttempts

/-- DlqService.routeToDlq: the DeadLetter row appended after retries are
exhausted. -/
def routeToDlq (topic : String) (payload : EventPayload) (errMessage : String)
    (errStack : Option String) (attemptCount : Nat) (freshId : String) (now : Nat) :
    DeadLetter :=
  { id := freshId, originalTopic := topic, originalPayload := payload
    errorMessage := errMessage, errorStack := errStack, attemptCount := attemptCount
    firstAttemptAt := now, lastAttemptAt := now, status := DeadLetterStatus.PENDING
    processedAt := none, createdAt := now }

/-- KafkaEventHandler.handleWalletCreditFailed on the wallet side
(kafka.event-handler.ts lines 187-217): perform the refund with retry; if
the retries are exhausted, route the original event to the DLQ with
attemptCount = RETRY_CONFIG.maxAttempts. -/
def handleWalletCreditFailedLedger (wst : WalletStore) (dlq : List DeadLetter)
    (event : WalletCreditFailedEvent) (envs : Nat → AttemptEnv)
    (errStack : Option String) (freshEntryId freshOutboxId freshDlqId : String)
    (now : Nat) : WalletStore × List DeadLetter :=
  match (performRefundWithRetry wst event envs freshEntryId freshOutboxId now).1 with
  | .ok (wst1, _) => (wst1, dlq)
  | .error err =>
      (wst, dlq ++ [routeToDlq "wallet.credit-failed" (.walletCreditFailed event)
        (refundErrorMessage err) errStack RETRY_CONFIG.maxAttempts freshDlqId now])

/-- DeadLetterRepositoryImpl.updateStatus: set the status of the row with
the given id, and processedAt only when provided. -/
def dlqUpdateStatus (dlq : List DeadLetter) (id : String) (status : DeadLetterStatus)
    (processedAt : Option Nat) : List DeadLetter :=
  dlq.map (fun d => if d.id == id then
    { d with status := status
             processedAt := match processedAt with
                            | some t => some t
                            | none => d.processedAt }
    else d)

/-- The unchecked cast of a dead-letter payload to WalletCreditFailedEvent
in DlqController.handleReplay; on a mismatched payload the source would read
undefined fields, modelled by zero values. -/
def asWalletCreditFailedEvent : EventPayload → WalletCreditFailedEvent
  | .walletCreditFailed e => e
  | _ => { transferId := "", walletId := "", reason := "", senderWalletId := ""
           amount := 0, timestamp := 0 }

/-- Result of the replay endpoint. -/
structure ReplayResult where
  success : Bool
  message : String
deriving DecidableEq, Repr

/-- DlqController.replayCreditFailedRefund (dlq.controller.ts lines
135-160): apply the refund under the deterministic refund transaction id
with no outbox entry, then publish wallet.refunded directly to the
broker. -/
def replayCreditFailedRefund (wst : WalletStore) (broker : List BrokerMessage)
    (event : WalletCreditFailedEvent) (freshEntryId : String) (now : Nat) :
    Except String (WalletStore × List BrokerMessage) :=
  match updateBalanceWithLedger wst event.senderWalletId
      (refundTxnIdReplayPath event.transferId) event.amount LedgerEntryType.REFUND
      none freshEntryId "" now with
  | .error werr => .error (walletErrorMessage werr)
  | .ok (wst1, _) =>
      .ok (wst1, broker ++ [{ topic := "wallet.refunded", key := event.transferId
                              payload := .walletRefunded { transferId := event.transferId
                                                           walletId := event.senderWalletId
                                                           amount := event.amount
                                                           timestamp := now } }])

/-- DlqController.handleReplay (dlq.controller.ts lines 120-130): dispatch
on the original topic; only wallet.credit-failed is supported. -/
def handleReplay (wst : WalletStore) (broker : List BrokerMessage) (entry : DeadLetter)
    (freshEntryId : String) (now : Nat) :
    Except String (WalletStore × List BrokerMessage) :=
  if entry.originalTopic = "wallet.credit-failed" then
    replayCreditFailedRefund wst broker (asWalletCreditFailedEvent entry.originalPayload)
      freshEntryId now
  else
    .error ("Unsupported topic for replay: " ++ entry.originalTopic)

/-- DlqController.replay (dlq.controller.ts lines 85-115): look up the
entry (404 when missing, modelled as the error case), short-circuit on
PROCESSED, otherwise run the replay, marking PROCESSED on success and
FAILED on failure. -/
def dlqReplay (dlq : List DeadLetter) (wst : WalletStore) (broker : List BrokerMessage)
    (id : String) (freshEntryId : String) (now : Nat) :
    Except String (List DeadLetter × WalletStore × List BrokerMessage × ReplayResult) :=
  match dlq.find? (fun d => d.id == id) with
  | none => .error ("DLQ entry not found: " ++ id)
  | some entry =>
    if entry.status == DeadLetterStatus.PROCESSED then
      .ok (dlq, wst, broker, { success := true, message := "Entry already processed" })
    else
      match handleReplay wst broker entry freshEntryId now with
      | .ok (wst1, broker1) =>
          .ok (dlqUpdateStatus dlq id DeadLetterStatus.PROCESSED (some now), wst1, broker1,
               { success := true, message := "Replay successful" })
      | .error msg =>
          .ok (dlqUpdateStatus dlq id DeadLetterStatus.FAILED none, wst, broker,
               { success := false, message := "Replay failed: " ++ msg })

/-! ## Helper lemmas -/

/-- Mapping a function that fixes every member leaves the list unchanged. -/
theorem map_id_of_fix {α : Type} (l : List α) (f : α → α) (h : ∀ x ∈ l, f x = x) :
    l.map f = l := by
  induction l with
  | nil => rfl
  | cons a t ih =>
      simp only [List.map_cons, h a (by simp)]
      rw [ih (fun x hx => h x (by simp [hx]))]

/-- The rows produced by the guarded balance update: each is a member of the
original wallets table, transformed only when the guard matched. -/
theorem guardedBalanceUpdate_mem (st : WalletStore) (walletId : String) (amount : Int)
    (isDebit : Bool) (now : Nat) (w : Wallet)
    (hw : w ∈ (guardedBalanceUpdate st walletId amount isDebit now).1) :
    ∃ x ∈ st.wallets,
      w = if guardMatches walletId amount isDebit x then guardedSet amount isDebit now x else x := by
  simp only [guardedBalanceUpdate, List.mem_map] at hw
  obtain ⟨x, hx, hfx⟩ := hw
  exact ⟨x, hx, hfx.symm⟩

/-- Balances stay non-negative across the guarded update when the amount is
non-negative: a matched debit has the balance predicate in its guard, any
other matched row only gains. -/
theorem guardedBalanceUpdate_nonneg (st : WalletStore) (walletId : String) (amount : Int)
    (isDebit : Bool) (now : Nat) (h0 : nonNegBalances st) (hamt : 0 ≤ amount) :
    ∀ w ∈ (guardedBalanceUpdate st walletId amount isDebit now).1, 0 ≤ w.balance := by
  intro w hw
  obtain ⟨x, hx, hfx⟩ := guardedBalanceUpdate_mem st walletId amount isDebit now w hw
  by_cases hm : guardMatches walletId amount isDebit x
  · subst hfx
    have hbase := h0 x hx
    cases isDebit with
    | false =>
        simp [hm, guardedSet]
        omega
    | true =>
        have hle : amount ≤ x.balance := by
          simp only [guardMatches, Bool.not_true, Bool.false_or, Bool.and_eq_true,
            decide_eq_true_eq] at hm
          exact hm.2
        simp [hm, guardedSet]
        omega
  · subst hfx
    simp only [hm, if_false]
    exact h0 x hx

/-- find? for a wallet id commutes with a map that preserves wallet ids. -/
theorem find?_map_preserving (l : List Wallet) (walletId : String) (f : Wallet → Wallet)
    (hf : ∀ w, (f w).walletId = w.walletId) :
    (l.map f).find? (fun w => w.walletId == walletId) =
      (l.find? (fun w => w.walletId == walletId)).map f := by
  rw [List.find?_map]
  have hpred : ((fun w => w.walletId == walletId) ∘ f) = (fun w => w.walletId == walletId) := by
    funext w
    simp [Function.comp, hf]
  rw [hpred]

/-- Both branches of the guarded update preserve the wallet id. -/
theorem guardUpdateFun_walletId (walletId : String) (amount : Int) (isDebit : Bool)
    (now : Nat) (w : Wallet) :
    ((if guardMatches walletId amount isDebit w then guardedSet amount isDebit now w else w)).walletId
      = w.walletId := by
  by_cases hm : guardMatches walletId amount isDebit w <;> simp [hm, guardedSet]

/-- Looking a wallet up after the guarded update finds the transformed image
of the wallet the lookup finds before it. -/
theorem findWallet_after_guarded (st : WalletStore) (walletId lookupId : String)
    (amount : Int) (isDebit : Bool) (now : Nat) :
    (guardedBalanceUpdate st walletId amount isDebit now).1.find?
        (fun w => w.walletId == lookupId) =
      (st.wallets.find? (fun w => w.walletId == lookupId)).map
        (fun w => if guardMatches walletId amount isDebit w
                  then guardedSet amount isDebit now w else w) := by
  exact find?_map_preserving st.wallets lookupId _
    (fun w => guardUpdateFun_walletId walletId amount isDebit now w)

/-- Wallets table of a committed ledger apply: unchanged on the duplicate
short-circuit, otherwise exactly the guarded-update image. -/
theorem updateBalanceWithLedger_ok_wallets (st : WalletStore)
    (walletId transactionId : String) (amount : Int) (entryType : LedgerEntryType)
    (outboxEntry : Option CreateOutboxEntry) (freshEntryId freshOutboxId : String)
    (now : Nat) (st1 : WalletStore) (r : DebitCreditResult)
    (h : updateBalanceWithLedger st walletId transactionId amount entryType outboxEntry
      freshEntryId freshOutboxId now = .ok (st1, r)) :
    st1.wallets = st.wallets ∨
      st1.wallets =
        (guardedBalanceUpdate st walletId amount (entryType == LedgerEntryType.DEBIT) now).1 := by
  unfold updateBalanceWithLedger at h
  split at h
  · simp only [Except.ok.injEq, Prod.mk.injEq] at h
    left
    rw [← h.1]
  · dsimp only at h
    split at h
    · split at h
      · exact absurd h (by simp)
      · simp only [Except.ok.injEq, Prod.mk.injEq] at h
        right
        rw [← h.1]
        split <;> rfl
    · split at h <;> exact absurd h (by simp)

/-- Errors roll the transaction back, so the post-state of a ledger apply
keeps non-negative balances whenever the pre-state has them and the applied
amount is non-negative. -/
theorem applyLedgerOp_nonneg (st : WalletStore) (walletId transactionId : String)
    (amount : Int) (entryType : LedgerEntryType) (outboxEntry : Option CreateOutboxEntry)
    (freshEntryId freshOutboxId : String) (now : Nat)
    (h0 : nonNegBalances st) (hamt : 0 ≤ amount) :
    nonNegBalances (applyLedgerOp st walletId transactionId amount entryType outboxEntry
      freshEntryId freshOutboxId now) := by
  unfold applyLedgerOp
  split
  · rename_i st1r heq
    rcases updateBalanceWithLedger_ok_wallets st walletId transactionId amount entryType
      outboxEntry freshEntryId freshOutboxId now _ _ heq with hsame | hupd
    · intro w hw
      rw [hsame] at hw
      exact h0 w hw
    · intro w hw
      rw [hupd] at hw
      exact guardedBalanceUpdate_nonneg st walletId amount _ now h0 hamt w hw
  · exact h0

/-- One wallet operation with a positive applied amount preserves the
non-negative-balance invariant. -/
theorem stepWallet_nonneg (st : WalletStore) (op : WalletOp)
    (h0 : nonNegBalances st) (hop : walletOpAmountPos op = true) :
    nonNegBalances (stepWallet st op) := by
  cases op with
  | create userId walletId now =>
      cases hcw : createWallet st userId walletId now with
      | error e =>
          simp only [stepWallet, hcw]
          exact h0
      | ok p =>
          obtain ⟨st1, w⟩ := p
          simp only [stepWallet, hcw]
          unfold createWallet at hcw
          split at hcw
          · exact absurd hcw (by simp)
          · simp only [Except.ok.injEq, Prod.mk.injEq] at hcw
            obtain ⟨hst1, -⟩ := hcw
            subst hst1
            intro x hx
            simp only [List.mem_append, List.mem_singleton] at hx
            rcases hx with hx | hx
            · exact h0 x hx
            · subst hx
              norm_num
  | ledgerApply walletId transactionId amount entryType outboxEntry fe fo now =>
      simp only [walletOpAmountPos, decide_eq_true_eq] at hop
      exact applyLedgerOp_nonneg st walletId transactionId amount entryType outboxEntry
        fe fo now h0 (le_of_lt hop)

/-- C1: createWallet initializes the balance to 0 and every ledger apply
with a positive amount preserves non-negative balances (a DEBIT only
succeeds under the guard balance >= amount, CREDIT and REFUND add the
amount), so no sequence of wallet operations drives any balance below
zero. -/
theorem claim_C1_balance_nonneg (ops : List WalletOp) (st : WalletStore)
    (h0 : nonNegBalances st) (hpos : ∀ op ∈ ops, walletOpAmountPos op = true) :
    nonNegBalances (ops.foldl stepWallet st) ∧
    (∀ userId walletId now st1 w,
      createWallet st userId walletId now = Except.ok (st1, w) → w.balance = 0) := by
  constructor
  · induction ops generalizing st with
    | nil => exact h0
    | cons op rest ih =>
        simp only [List.foldl_cons]
        exact ih (stepWallet st op) (stepWallet_nonneg st op h0 (hpos op (by simp)))
          (fun o ho => hpos o (by simp [ho]))
  · intro userId walletId now st1 w h
    unfold createWallet at h
    split at h
    · exact absurd h (by simp)
    · simp only [Except.ok.injEq, Prod.mk.injEq] at h
      obtain ⟨-, hw⟩ := h
      subst hw
      rfl

/-- Concrete operation sequence for the C1 witness: a creation, a credit, a
covered debit and a rejected overdraft. -/
def c1WitnessOps : List WalletOp :=
  [WalletOp.create "u1" "w1" 0,
   WalletOp.ledgerApply "w1" "t1" 500 LedgerEntryType.CREDIT none "e1" "o1" 1,
   WalletOp.ledgerApply "w1" "t2" 200 LedgerEntryType.DEBIT none "e2" "o2" 2,
   WalletOp.ledgerApply "w1" "t3" 9999 LedgerEntryType.DEBIT none "e3" "o3" 3]

/-- Witness for C1 at a concrete operation sequence from the empty store. -/
theorem claim_C1_balance_nonneg_witness :
    nonNegBalances (c1WitnessOps.foldl stepWallet ⟨[], [], []⟩) ∧
    (∀ userId walletId now st1 w,
      createWallet ⟨[], [], []⟩ userId walletId now = Except.ok (st1, w) → w.balance = 0) :=
  claim_C1_balance_nonneg c1WitnessOps ⟨[], [], []⟩ (by decide) (by decide)

/-- C2: when a ledger entry with the same wallet and transaction already
exists, the ledger apply returns it with the current wallet and
isDuplicate = true, leaving the store (wallets, ledger, outbox) exactly
unchanged, for every amount and entry type passed in. -/
theorem claim_C2_idempotent_shortcircuit (st : WalletStore)
    (walletId transactionId : String) (amount : Int) (entryType : LedgerEntryType)
    (outboxEntry : Option CreateOutboxEntry) (freshEntryId freshOutboxId : String)
    (now : Nat) (e : WalletLedgerEntry)
    (hdup : findLedgerEntry st walletId transactionId = some e) :
    updateBalanceWithLedger st walletId transactionId amount entryType outboxEntry
      freshEntryId freshOutboxId now =
      .ok (st, { wallet := findWallet st walletId, ledgerEntry := e, isDuplicate := true }) := by
  unfold updateBalanceWithLedger
  rw [hdup]

/-- Concrete store for the C2 witness. -/
def c2WitnessStore : WalletStore :=
  { wallets := [{ walletId := "w1", userId := "u1", balance := 7, createdAt := 0, updatedAt := 0 }]
    ledger := [{ entryId := "e1", walletId := "w1", transactionId := "t1"
                 type := LedgerEntryType.DEBIT, amount := 3, createdAt := 0 }]
    outbox := [] }

/-- Witness for C2: a duplicate call with a different amount and type
returns the stored entry and changes nothing. -/
theorem claim_C2_idempotent_shortcircuit_witness :
    updateBalanceWithLedger c2WitnessStore "w1" "t1" 99 LedgerEntryType.CREDIT none
      "e2" "o2" 5 =
      .ok (c2WitnessStore,
        { wallet := findWallet c2WitnessStore "w1"
          ledgerEntry := { entryId := "e1", walletId := "w1", transactionId := "t1"
                           type := LedgerEntryType.DEBIT, amount := 3, createdAt := 0 }
          isDuplicate := true }) :=
  claim_C2_idempotent_shortcircuit c2WitnessStore "w1" "t1" 99 LedgerEntryType.CREDIT none
    "e2" "o2" 5 _ (by decide)

/-- C3: when no duplicate entry exists and the guarded balance update
affects a row count other than one, the ledger apply throws: wallet-not-found
when no wallet row with that id exists, otherwise insufficient-balance
reporting a current balance and the required amount; the store seen after
the operation is the unchanged pre-state (rollback). -/
theorem claim_C3_failure_rollback (st : WalletStore) (walletId transactionId : String)
    (amount : Int) (entryType : LedgerEntryType) (outboxEntry : Option CreateOutboxEntry)
    (freshEntryId freshOutboxId : String) (now : Nat)
    (hnew : findLedgerEntry st walletId transactionId = none)
    (haff : (guardedBalanceUpdate st walletId amount
      (entryType == LedgerEntryType.DEBIT) now).2 ≠ 1) :
    applyLedgerOp st walletId transactionId amount entryType outboxEntry
      freshEntryId freshOutboxId now = st ∧
    (findWallet st walletId = none →
      updateBalanceWithLedger st walletId transactionId amount entryType outboxEntry
        freshEntryId freshOutboxId now = .error (.walletNotFound walletId)) ∧
    (∀ w, findWallet st walletId = some w →
      ∃ current,
        updateBalanceWithLedger st walletId transactionId amount entryType outboxEntry
          freshEntryId freshOutboxId now = .error (.insufficientBalance current amount)) := by
  have hbridge := findWallet_after_guarded st walletId walletId amount
    (entryType == LedgerEntryType.DEBIT) now
  cases hfw : st.wallets.find? (fun w => w.walletId == walletId) with
  | none =>
      have herr : updateBalanceWithLedger st walletId transactionId amount entryType
          outboxEntry freshEntryId freshOutboxId now = .error (.walletNotFound walletId) := by
        unfold updateBalanceWithLedger
        rw [hnew]
        dsimp only
        rw [if_neg haff]
        rw [hbridge, hfw]
        rfl
      refine ⟨?_, fun _ => herr, ?_⟩
      · unfold applyLedgerOp
        rw [herr]
      · intro w hw
        unfold findWallet at hw
        rw [hfw] at hw
        exact absurd hw (by simp)
  | some w =>
      have herr : updateBalanceWithLedger st walletId transactionId amount entryType
          outboxEntry freshEntryId freshOutboxId now =
          .error (.insufficientBalance
            ((if guardMatches walletId amount (entryType == LedgerEntryType.DEBIT) w
              then guardedSet amount (entryType == LedgerEntryType.DEBIT) now w else w)).balance
            amount) := by
        unfold updateBalanceWithLedger
        rw [hnew]
        dsimp only
        rw [if_neg haff]
        rw [hbridge, hfw]
        rfl
      refine ⟨?_, ?_, ?_⟩
      · unfold applyLedgerOp
        rw [herr]
      · intro hnone
        unfold findWallet at hnone
        rw [hfw] at hnone
        exact absurd hnone (by simp)
      · intro _ _
        exact ⟨_, herr⟩

/-- Concrete store for the C3 witness: one wallet with balance 3. -/
def c3WitnessStore : WalletStore :=
  { wallets := [{ walletId := "w1", userId := "u1", balance := 3, createdAt := 0, updatedAt := 0 }]
    ledger := []
    outbox := [] }

/-- Witness for C3: debiting 5 from a balance of 3 rolls back and reports
insufficient balance. -/
theorem claim_C3_failure_rollback_witness :
    applyLedgerOp c3WitnessStore "w1" "t9" 5 LedgerEntryType.DEBIT none "e9" "o9" 4 =
      c3WitnessStore ∧
    (findWallet c3WitnessStore "w1" = none →
      updateBalanceWithLedger c3WitnessStore "w1" "t9" 5 LedgerEntryType.DEBIT none
        "e9" "o9" 4 = .error (.walletNotFound "w1")) ∧
    (∀ w, findWallet c3WitnessStore "w1" = some w →
      ∃ current,
        updateBalanceWithLedger c3WitnessStore "w1" "t9" 5 LedgerEntryType.DEBIT none
          "e9" "o9" 4 = .error (.insufficientBalance current 5)) :=
  claim_C3_failure_rollback c3WitnessStore "w1" "t9" 5 LedgerEntryType.DEBIT none
    "e9" "o9" 4 (by decide) (by decide)

/-! ## Coordinator events and saga transitions (claim C4) -/

/-- The coordinator-side occurrences that change saga status: the four
wallet-event handlers of kafka.event-handler.ts and the two recovery paths
of the timeout scanner. -/
inductive CoordEvent where
  | walletDebited (e : WalletDebitedEvent)
  | walletDebitFailed (e : WalletDebitFailedEvent)
  | walletCredited (e : WalletCreditedEvent)
  | walletCreditFailed (e : WalletCreditFailedEvent)
  | timeoutPending (transferId : String)
  | timeoutDebited (transferId senderWalletId receiverWalletId : String) (amount : Int)
deriving DecidableEq, Repr

/-- Dispatch of a coordinator event to its source handler. -/
def handleCoordEvent (st : TransferStore) (ev : CoordEvent) (now : Nat)
    (freshId1 freshId2 : String) : TransferStore :=
  match ev with
  | .walletDebited e => handleWalletDebitedCoord st e now
  | .walletDebitFailed e => handleWalletDebitFailedCoord st e now freshId1
  | .walletCredited e => handleWalletCreditedCoord st e now freshId1
  | .walletCreditFailed e => handleWalletCreditFailedCoord st e now freshId1
  | .timeoutPending transferId => handleStuckPending st transferId now freshId1
  | .timeoutDebited transferId s r a => handleStuckDebited st transferId s r a now freshId1 freshId2

/-- Transfer id each handler conditions its update on. -/
def eventTransferId : CoordEvent → String
  | .walletDebited e => e.transferId
  | .walletDebitFailed e => e.transferId
  | .walletCredited e => e.transferId
  | .walletCreditFailed e => e.transferId
  | .timeoutPending transferId => transferId
  | .timeoutDebited transferId _ _ _ => transferId

/-- Expected status in the WHERE clause of each handler. -/
def eventExpectedStatus : CoordEvent → TransferStatus
  | .walletDebited _ => TransferStatus.PENDING
  | .walletDebitFailed _ => TransferStatus.PENDING
  | .walletCredited _ => TransferStatus.DEBITED
  | .walletCreditFailed _ => TransferStatus.DEBITED
  | .timeoutPending _ => TransferStatus.PENDING
  | .timeoutDebited _ _ _ _ => TransferStatus.DEBITED

/-- New status written by each handler. -/
def eventNewStatus : CoordEvent → TransferStatus
  | .walletDebited _ => TransferStatus.DEBITED
  | .walletDebitFailed _ => TransferStatus.FAILED
  | .walletCredited _ => TransferStatus.COMPLETED
  | .walletCreditFailed _ => TransferStatus.FAILED
  | .timeoutPending _ => TransferStatus.FAILED
  | .timeoutDebited _ _ _ _ => TransferStatus.FAILED

/-- Failure reason written by each handler. -/
def eventFailureReason : CoordEvent → Option String
  | .walletDebited _ => none
  | .walletDebitFailed e => some e.reason
  | .walletCredited _ => none
  | .walletCreditFailed e => some e.reason
  | .timeoutPending _ => some stuckPendingReason
  | .timeoutDebited _ _ _ _ => some stuckDebitedReason

/-- Outbox records each handler appends when its conditional update wins. -/
def eventOutboxRecords (ev : CoordEvent) (now : Nat) (freshId1 freshId2 : String) :
    List OutboxRecord :=
  match ev with
  | .walletDebited _ => []
  | .walletDebitFailed e =>
      [{ id := freshId1, aggregateType := OutboxAggregateType.TRANSFER
         aggregateId := e.transferId, eventType := OutboxEventType.TRANSFER_FAILED
         payload := .transferFailed { transferId := e.transferId, reason := e.reason
                                      timestamp := now }
         createdAt := now, publishedAt := none }]
  | .walletCredited e =>
      [{ id := freshId1, aggregateType := OutboxAggregateType.TRANSFER
         aggregateId := e.transferId, eventType := OutboxEventType.TRANSFER_COMPLETED
         payload := .transferCompleted { transferId := e.transferId, timestamp := now }
         createdAt := now, publishedAt := none }]
  | .walletCreditFailed e =>
      [{ id := freshId1, aggregateType := OutboxAggregateType.TRANSFER
         aggregateId := e.transferId, eventType := OutboxEventType.TRANSFER_FAILED
         payload := .transferFailed { transferId := e.transferId, reason := e.reason
                                      timestamp := now }
         createdAt := now, publishedAt := none }]
  | .timeoutPending transferId =>
      [{ id := freshId1, aggregateType := OutboxAggregateType.TRANSFER
         aggregateId := transferId, eventType := OutboxEventType.TRANSFER_FAILED
         payload := .transferFailed { transferId := transferId, reason := stuckPendingReason
                                      timestamp := now }
         createdAt := now, publishedAt := none }]
  | .timeoutDebited transferId s r a =>
      [stuckDebitedFailedRecord transferId now freshId1,
       stuckDebitedCompensationRecord transferId s r a now freshId2]

/-- Whether the handler of an event writes outbox records on a win (only
wallet.debited writes none). -/
def eventWritesOutbox : CoordEvent → Bool
  | .walletDebited _ => false
  | _ => true

/-- Terminal saga states. -/
def terminalStatus (s : TransferStatus) : Prop :=
  s = TransferStatus.COMPLETED ∨ s = TransferStatus.FAILED

/-- The transitions of the saga state machine as listed in the transition
table of the specification (excluding initiation, which creates the row). -/
def validTransition (s s2 : TransferStatus) : Prop :=
  (s = TransferStatus.PENDING ∧ s2 = TransferStatus.DEBITED) ∨
  (s = TransferStatus.PENDING ∧ s2 = TransferStatus.FAILED) ∨
  (s = TransferStatus.DEBITED ∧ s2 = TransferStatus.COMPLETED) ∨
  (s = TransferStatus.DEBITED ∧ s2 = TransferStatus.FAILED)

/-- Every coordinator handler is exactly a conditional status update plus a
conditional outbox append, with transfer id, expected and new status, and
failure reason determined by the event. -/
theorem handleCoordEvent_eq (st : TransferStore) (ev : CoordEvent) (now : Nat)
    (freshId1 freshId2 : String) :
    handleCoordEvent st ev now freshId1 freshId2 =
      { transfers := st.transfers.map (applyStatusSet (eventNewStatus ev)
          (eventFailureReason ev) now (eventTransferId ev) (eventExpectedStatus ev))
        outbox := st.outbox ++
          (if 0 < (st.transfers.filter
              (matchesTransfer (eventTransferId ev) (eventExpectedStatus ev))).length
           then eventOutboxRecords ev now freshId1 freshId2 else [])
        broker := st.broker } := by
  cases ev with
  | walletDebited e =>
      simp [handleCoordEvent, handleWalletDebitedCoord, updateTransferStatus,
        conditionalStatusUpdate, eventTransferId, eventExpectedStatus, eventNewStatus,
        eventFailureReason, eventOutboxRecords]
  | walletDebitFailed e =>
      simp only [handleCoordEvent, handleWalletDebitFailedCoord, updateStatusWithOutbox,
        conditionalStatusUpdate, eventTransferId, eventExpectedStatus, eventNewStatus,
        eventFailureReason, eventOutboxRecords]
      by_cases hwin : 0 < (st.transfers.filter
          (matchesTransfer e.transferId TransferStatus.PENDING)).length <;>
        simp [hwin]
  | walletCredited e =>
      simp only [handleCoordEvent, handleWalletCreditedCoord, updateStatusWithOutbox,
        conditionalStatusUpdate, eventTransferId, eventExpectedStatus, eventNewStatus,
        eventFailureReason, eventOutboxRecords]
      by_cases hwin : 0 < (st.transfers.filter
          (matchesTransfer e.transferId TransferStatus.DEBITED)).length <;>
        simp [hwin]
  | walletCreditFailed e =>
      simp only [handleCoordEvent, handleWalletCreditFailedCoord, updateStatusWithOutbox,
        conditionalStatusUpdate, eventTransferId, eventExpectedStatus, eventNewStatus,
        eventFailureReason, eventOutboxRecords]
      by_cases hwin : 0 < (st.transfers.filter
          (matchesTransfer e.transferId TransferStatus.DEBITED)).length <;>
        simp [hwin]
  | timeoutPending transferId =>
      simp only [handleCoordEvent, handleStuckPending, conditionalStatusUpdate,
        eventTransferId, eventExpectedStatus, eventNewStatus, eventFailureReason,
        eventOutboxRecords]
      by_cases hwin : 0 < (st.transfers.filter
          (matchesTransfer transferId TransferStatus.PENDING)).length <;>
        simp [hwin]
  | timeoutDebited transferId s r a =>
      simp only [handleCoordEvent, handleStuckDebited, conditionalStatusUpdate,
        eventTransferId, eventExpectedStatus, eventNewStatus, eventFailureReason,
        eventOutboxRecords]
      by_cases hwin : 0 < (st.transfers.filter
          (matchesTransfer transferId TransferStatus.DEBITED)).length <;>
        simp [hwin]

/-- A transfer in a terminal state never matches a conditional update whose
expected status is PENDING or DEBITED. -/
theorem applyStatusSet_of_terminal (newStatus : TransferStatus) (failureReason : Option String)
    (now : Nat) (transferId : String) (expected : TransferStatus) (t : Transfer)
    (ht : terminalStatus t.status)
    (hexp : expected = TransferStatus.PENDING ∨ expected = TransferStatus.DEBITED) :
    applyStatusSet newStatus failureReason now transferId expected t = t := by
  unfold applyStatusSet matchesTransfer
  have hfalse : (t.status == expected) = false := by
    rcases ht with h | h <;> rcases hexp with he | he <;> rw [h, he] <;> decide
  simp [hfalse]

/-- C4: every saga status change is a conditional update whose expected
status is PENDING or DEBITED; pointwise, terminal transfers are never
changed and any change follows the transition table; a losing update writes
no outbox record, and a winning update appends its outbox records in the
same step (same local transaction). -/
theorem claim_C4_conditional_transitions (st : TransferStore) (ev : CoordEvent) (now : Nat)
    (freshId1 freshId2 : String) :
    (eventExpectedStatus ev = TransferStatus.PENDING ∨
      eventExpectedStatus ev = TransferStatus.DEBITED) ∧
    (handleCoordEvent st ev now freshId1 freshId2).transfers.length = st.transfers.length ∧
    (∀ i (hi : i < st.transfers.length)
        (hi2 : i < (handleCoordEvent st ev now freshId1 freshId2).transfers.length),
      (terminalStatus (st.transfers.get ⟨i, hi⟩).status →
        (handleCoordEvent st ev now freshId1 freshId2).transfers.get ⟨i, hi2⟩ =
          st.transfers.get ⟨i, hi⟩) ∧
      ((handleCoordEvent st ev now freshId1 freshId2).transfers.get ⟨i, hi2⟩ =
          st.transfers.get ⟨i, hi⟩ ∨
        validTransition (st.transfers.get ⟨i, hi⟩).status
          ((handleCoordEvent st ev now freshId1 freshId2).transfers.get ⟨i, hi2⟩).status)) ∧
    ((st.transfers.filter
        (matchesTransfer (eventTransferId ev) (eventExpectedStatus ev))).length = 0 →
      (handleCoordEvent st ev now freshId1 freshId2).outbox = st.outbox) ∧
    (0 < (st.transfers.filter
        (matchesTransfer (eventTransferId ev) (eventExpectedStatus ev))).length →
      ∃ recs, (handleCoordEvent st ev now freshId1 freshId2).outbox = st.outbox ++ recs ∧
        (eventWritesOutbox ev = true → recs ≠ [])) := by
  have hexp : eventExpectedStatus ev = TransferStatus.PENDING ∨
      eventExpectedStatus ev = TransferStatus.DEBITED := by
    cases ev <;> simp [eventExpectedStatus]
  have hvalid : validTransition (eventExpectedStatus ev) (eventNewStatus ev) := by
    cases ev <;> simp [eventExpectedStatus, eventNewStatus, validTransition]
  rw [handleCoordEvent_eq]
  refine ⟨hexp, by simp, ?_, ?_, ?_⟩
  · intro i hi hi2
    constructor
    · intro hterm
      simp only [List.get_eq_getElem, List.getElem_map]
      exact applyStatusSet_of_terminal _ _ _ _ _ _ hterm hexp
    · by_cases hm : matchesTransfer (eventTransferId ev) (eventExpectedStatus ev)
          (st.transfers.get ⟨i, hi⟩) = true
      · right
        have hstat : (st.transfers.get ⟨i, hi⟩).status = eventExpectedStatus ev := by
          simp only [matchesTransfer, Bool.and_eq_true, beq_iff_eq] at hm
          exact hm.2
        simp only [List.get_eq_getElem] at hm
        simp only [List.get_eq_getElem, List.getElem_map, applyStatusSet, hm, if_true]
        simp only [List.get_eq_getElem] at hstat
        rw [hstat]
        exact hvalid
      · left
        simp only [List.get_eq_getElem] at hm
        simp only [List.get_eq_getElem, List.getElem_map, applyStatusSet]
        rw [if_neg hm]
  · intro hzero
    simp [hzero]
  · intro hpos
    refine ⟨eventOutboxRecords ev now freshId1 freshId2, by simp [hpos], ?_⟩
    intro hw
    cases ev with
    | walletDebited e => simp [eventWritesOutbox] at hw
    | walletDebitFailed e => simp [eventOutboxRecords]
    | walletCredited e => simp [eventOutboxRecords]
    | walletCreditFailed e => simp [eventOutboxRecords]
    | timeoutPending transferId => simp [eventOutboxRecords]
    | timeoutDebited transferId s r a => simp [eventOutboxRecords]

/-- Concrete store for the C4 witness: a DEBITED transfer. -/
def c4WitnessStore : TransferStore :=
  { transfers := [{ transferId := "tr1", senderWalletId := "w1", receiverWalletId := "w2"
                    amount := 100, status := TransferStatus.DEBITED, failureReason := none
                    timeoutAt := 60000, createdAt := 0, updatedAt := 0 }]
    outbox := []
    broker := [] }

/-- Concrete event for the C4 witness. -/
def c4WitnessEvent : CoordEvent :=
  CoordEvent.walletCredited { transferId := "tr1", walletId := "w2", amount := 100
                              timestamp := 7 }

/-- Witness for C4 at a concrete store and event. -/
theorem claim_C4_conditional_transitions_witness :
    (eventExpectedStatus c4WitnessEvent = TransferStatus.PENDING ∨
      eventExpectedStatus c4WitnessEvent = TransferStatus.DEBITED) ∧
    (handleCoordEvent c4WitnessStore c4WitnessEvent 7 "f1" "f2").transfers.length =
      c4WitnessStore.transfers.length ∧
    (∀ i (hi : i < c4WitnessStore.transfers.length)
        (hi2 : i < (handleCoordEvent c4WitnessStore c4WitnessEvent 7 "f1" "f2").transfers.length),
      (terminalStatus (c4WitnessStore.transfers.get ⟨i, hi⟩).status →
        (handleCoordEvent c4WitnessStore c4WitnessEvent 7 "f1" "f2").transfers.get ⟨i, hi2⟩ =
          c4WitnessStore.transfers.get ⟨i, hi⟩) ∧
      ((handleCoordEvent c4WitnessStore c4WitnessEvent 7 "f1" "f2").transfers.get ⟨i, hi2⟩ =
          c4WitnessStore.transfers.get ⟨i, hi⟩ ∨
        validTransition (c4WitnessStore.transfers.get ⟨i, hi⟩).status
          ((handleCoordEvent c4WitnessStore c4WitnessEvent 7 "f1" "f2").transfers.get
            ⟨i, hi2⟩).status)) ∧
    ((c4WitnessStore.transfers.filter
        (matchesTransfer (eventTransferId c4WitnessEvent)
          (eventExpectedStatus c4WitnessEvent))).length = 0 →
      (handleCoordEvent c4WitnessStore c4WitnessEvent 7 "f1" "f2").outbox =
        c4WitnessStore.outbox) ∧
    (0 < (c4WitnessStore.transfers.filter
        (matchesTransfer (eventTransferId c4WitnessEvent)
          (eventExpectedStatus c4WitnessEvent))).length →
      ∃ recs, (handleCoordEvent c4WitnessStore c4WitnessEvent 7 "f1" "f2").outbox =
          c4WitnessStore.outbox ++ recs ∧
        (eventWritesOutbox c4WitnessEvent = true → recs ≠ [])) :=
  claim_C4_conditional_transitions c4WitnessStore c4WitnessEvent 7 "f1" "f2"

/-- After a conditional update to FAILED, no row matches the same
(transferId, DEBITED) condition again. -/
theorem filter_after_failed_update (ts : List Transfer) (transferId : String)
    (failureReason : Option String) (now : Nat) :
    (ts.map (applyStatusSet TransferStatus.FAILED failureReason now transferId
      TransferStatus.DEBITED)).filter (matchesTransfer transferId TransferStatus.DEBITED)
      = [] := by
  rw [List.filter_eq_nil_iff]
  intro a ha
  rw [List.mem_map] at ha
  obtain ⟨t, -, rfl⟩ := ha
  by_cases hm : matchesTransfer transferId TransferStatus.DEBITED t = true
  · simp only [applyStatusSet, if_pos hm]
    simp [matchesTransfer]
  · simp only [applyStatusSet, if_neg hm]
    exact hm

/-- C6: the timeout scanner selects only transfers with timeoutAt < now in
status PENDING or DEBITED, up to the limit, ordered by timeoutAt ascending,
carrying the receiver wallet and amount of the row; handleStuckDebited
writes FAILED with the saga-timeout reason, a losing conditional update
appends nothing, a winning one appends the TransferFailed record and the
WalletCreditFailed compensation record carrying senderWalletId and amount
in the same transaction, and running it again on its own result changes
nothing (compensation records are produced at most once). -/
theorem claim_C6_timeout_scanner (st : TransferStore) (now limit : Nat)
    (transferId senderWalletId receiverWalletId : String) (amount : Int)
    (nowT now2 : Nat) (freshId1 freshId2 freshId3 freshId4 : String) :
    (∀ s ∈ findStuckTransfers st now limit,
      s.transfer ∈ st.transfers ∧ s.transfer.timeoutAt < now ∧
      (s.transfer.status = TransferStatus.PENDING ∨
        s.transfer.status = TransferStatus.DEBITED) ∧
      s.receiverWalletId = s.transfer.receiverWalletId ∧ s.amount = s.transfer.amount) ∧
    (findStuckTransfers st now limit).length ≤ limit ∧
    (findStuckTransfers st now limit).Pairwise
      (fun a b => a.transfer.timeoutAt ≤ b.transfer.timeoutAt) ∧
    (handleStuckDebited st transferId senderWalletId receiverWalletId amount nowT
        freshId1 freshId2).transfers =
      st.transfers.map (applyStatusSet TransferStatus.FAILED (some stuckDebitedReason)
        nowT transferId TransferStatus.DEBITED) ∧
    ((st.transfers.filter (matchesTransfer transferId TransferStatus.DEBITED)).length = 0 →
      (handleStuckDebited st transferId senderWalletId receiverWalletId amount nowT
        freshId1 freshId2).outbox = st.outbox) ∧
    (0 < (st.transfers.filter (matchesTransfer transferId TransferStatus.DEBITED)).length →
      (handleStuckDebited st transferId senderWalletId receiverWalletId amount nowT
        freshId1 freshId2).outbox =
        st.outbox ++ [stuckDebitedFailedRecord transferId nowT freshId1,
          stuckDebitedCompensationRecord transferId senderWalletId receiverWalletId
            amount nowT freshId2]) ∧
    handleStuckDebited
      (handleStuckDebited st transferId senderWalletId receiverWalletId amount nowT
        freshId1 freshId2)
      transferId senderWalletId receiverWalletId amount now2 freshId3 freshId4 =
      handleStuckDebited st transferId senderWalletId receiverWalletId amount nowT
        freshId1 freshId2 := by
  refine ⟨?_, ?_, ?_, ?_, ?_, ?_, ?_⟩
  · intro s hs
    simp only [findStuckTransfers, List.mem_map] at hs
    obtain ⟨t, ht, rfl⟩ := hs
    have ht2 : t ∈ (st.transfers.filter (fun t =>
        (t.status == TransferStatus.PENDING || t.status == TransferStatus.DEBITED)
          && decide (t.timeoutAt < now))).mergeSort
        (fun a b => a.timeoutAt ≤ b.timeoutAt) :=
      (List.take_sublist limit _).subset ht
    rw [List.mem_mergeSort] at ht2
    rw [List.mem_filter] at ht2
    obtain ⟨hmem, hpred⟩ := ht2
    simp only [Bool.and_eq_true, Bool.or_eq_true, beq_iff_eq, decide_eq_true_eq] at hpred
    exact ⟨hmem, hpred.2, hpred.1, rfl, rfl⟩
  · simp only [findStuckTransfers, List.length_map]
    exact List.length_take_le limit _
  · simp only [findStuckTransfers]
    rw [List.pairwise_map]
    refine List.Pairwise.sublist (List.take_sublist limit _) ?_
    have hs := @List.sorted_mergeSort Transfer
      (fun a b : Transfer => decide (a.timeoutAt ≤ b.timeoutAt))
      (fun a b c h1 h2 => by
        simp only [decide_eq_true_eq] at h1 h2 ⊢
        omega)
      (fun a b => by
        simp only [Bool.or_eq_true, decide_eq_true_eq]
        exact Nat.le_total a.timeoutAt b.timeoutAt)
      (st.transfers.filter (fun t =>
        (t.status == TransferStatus.PENDING || t.status == TransferStatus.DEBITED)
          && decide (t.timeoutAt < now)))
    exact hs.imp (by intro a b h; simpa using h)
  · simp only [handleStuckDebited, conditionalStatusUpdate]
    by_cases hwin : 0 < (st.transfers.filter
        (matchesTransfer transferId TransferStatus.DEBITED)).length <;> simp [hwin]
  · intro hzero
    simp [handleStuckDebited, conditionalStatusUpdate, hzero]
  · intro hpos
    simp [handleStuckDebited, conditionalStatusUpdate, hpos]
  · set st1 := handleStuckDebited st transferId senderWalletId receiverWalletId amount nowT
      freshId1 freshId2 with hst1
    have htr : st1.transfers =
        st.transfers.map (applyStatusSet TransferStatus.FAILED (some stuckDebitedReason)
          nowT transferId TransferStatus.DEBITED) := by
      rw [hst1]
      simp only [handleStuckDebited, conditionalStatusUpdate]
      by_cases hwin : 0 < (st.transfers.filter
          (matchesTransfer transferId TransferStatus.DEBITED)).length <;> simp [hwin]
    have hfilter2 : (st1.transfers.filter
        (matchesTransfer transferId TransferStatus.DEBITED)) = [] := by
      rw [htr]
      exact filter_after_failed_update st.transfers transferId (some stuckDebitedReason) nowT
    have hfix : ∀ t ∈ st1.transfers,
        applyStatusSet TransferStatus.FAILED (some stuckDebitedReason) now2 transferId
          TransferStatus.DEBITED t = t := by
      intro t ht
      have := List.filter_eq_nil_iff.mp hfilter2 t ht
      simp only [applyStatusSet]
      rw [if_neg this]
    conv_lhs => rw [handleStuckDebited]
    simp only [conditionalStatusUpdate, hfilter2]
    simp [map_id_of_fix _ _ hfix]

/-- Concrete store for the C6 witness: one stuck DEBITED transfer. -/
def c6WitnessStore : TransferStore :=
  { transfers := [{ transferId := "tr6", senderWalletId := "w1", receiverWalletId := "w2"
                    amount := 300, status := TransferStatus.DEBITED, failureReason := none
                    timeoutAt := 10, createdAt := 0, updatedAt := 0 }]
    outbox := []
    broker := [] }

/-- Witness for C6 at a concrete store, scanning at time 100 and recovering
the stuck DEBITED transfer twice. -/
theorem claim_C6_timeout_scanner_witness :
    (∀ s ∈ findStuckTransfers c6WitnessStore 100 100,
      s.transfer ∈ c6WitnessStore.transfers ∧ s.transfer.timeoutAt < 100 ∧
      (s.transfer.status = TransferStatus.PENDING ∨
        s.transfer.status = TransferStatus.DEBITED) ∧
      s.receiverWalletId = s.transfer.receiverWalletId ∧ s.amount = s.transfer.amount) ∧
    (findStuckTransfers c6WitnessStore 100 100).length ≤ 100 ∧
    (findStuckTransfers c6WitnessStore 100 100).Pairwise
      (fun a b => a.transfer.timeoutAt ≤ b.transfer.timeoutAt) ∧
    (handleStuckDebited c6WitnessStore "tr6" "w1" "w2" 300 101 "f1" "f2").transfers =
      c6WitnessStore.transfers.map (applyStatusSet TransferStatus.FAILED
        (some stuckDebitedReason) 101 "tr6" TransferStatus.DEBITED) ∧
    ((c6WitnessStore.transfers.filter (matchesTransfer "tr6" TransferStatus.DEBITED)).length
        = 0 →
      (handleStuckDebited c6WitnessStore "tr6" "w1" "w2" 300 101 "f1" "f2").outbox =
        c6WitnessStore.outbox) ∧
    (0 < (c6WitnessStore.transfers.filter
        (matchesTransfer "tr6" TransferStatus.DEBITED)).length →
      (handleStuckDebited c6WitnessStore "tr6" "w1" "w2" 300 101 "f1" "f2").outbox =
        c6WitnessStore.outbox ++ [stuckDebitedFailedRecord "tr6" 101 "f1",
          stuckDebitedCompensationRecord "tr6" "w1" "w2" 300 101 "f2"]) ∧
    handleStuckDebited (handleStuckDebited c6WitnessStore "tr6" "w1" "w2" 300 101 "f1" "f2")
      "tr6" "w1" "w2" 300 150 "f3" "f4" =
      handleStuckDebited c6WitnessStore "tr6" "w1" "w2" 300 101 "f1" "f2" :=
  claim_C6_timeout_scanner c6WitnessStore 100 100 "tr6" "w1" "w2" 300 101 150
    "f1" "f2" "f3" "f4"

/-- C7: a transfer initiation with distinct wallet ids and a positive
integer amount (the CreateTransferDto validation) returns the new transfer
in status PENDING, persists it with timeoutAt = now + sagaTimeoutMs
(default 60000 ms) together with exactly one transfer.initiated outbox
record in the same transaction, and publishes nothing directly to the
broker. -/
theorem claim_C7_create_transfer (st : TransferStore)
    (senderWalletId receiverWalletId : String) (amount : Int)
    (sagaTimeoutMs now : Nat) (freshTransferId freshOutboxId : String)
    (hdistinct : senderWalletId ≠ receiverWalletId) (hpos : 0 < amount) :
    (createTransfer st senderWalletId receiverWalletId amount sagaTimeoutMs now
      freshTransferId freshOutboxId).2.transferId = freshTransferId ∧
    (createTransfer st senderWalletId receiverWalletId amount sagaTimeoutMs now
      freshTransferId freshOutboxId).2.status = TransferStatus.PENDING ∧
    (createTransfer st senderWalletId receiverWalletId amount sagaTimeoutMs now
      freshTransferId freshOutboxId).2.timeoutAt = now + sagaTimeoutMs ∧
    (createTransfer st senderWalletId receiverWalletId amount sagaTimeoutMs now
      freshTransferId freshOutboxId).2.senderWalletId = senderWalletId ∧
    (createTransfer st senderWalletId receiverWalletId amount sagaTimeoutMs now
      freshTransferId freshOutboxId).2.receiverWalletId = receiverWalletId ∧
    (createTransfer st senderWalletId receiverWalletId amount sagaTimeoutMs now
      freshTransferId freshOutboxId).2.amount = amount ∧
    (createTransfer st senderWalletId receiverWalletId amount sagaTimeoutMs now
      freshTransferId freshOutboxId).1.transfers =
      st.transfers ++ [(createTransfer st senderWalletId receiverWalletId amount
        sagaTimeoutMs now freshTransferId freshOutboxId).2] ∧
    (∃ record,
      (createTransfer st senderWalletId receiverWalletId amount sagaTimeoutMs now
        freshTransferId freshOutboxId).1.outbox = st.outbox ++ [record] ∧
      record.eventType = OutboxEventType.TRANSFER_INITIATED ∧
      record.aggregateId = freshTransferId ∧
      record.publishedAt = none ∧
      record.payload = .transferInitiated
        { transferId := freshTransferId, senderWalletId := senderWalletId
          receiverWalletId := receiverWalletId, amount := amount, timestamp := now }) ∧
    (createTransfer st senderWalletId receiverWalletId amount sagaTimeoutMs now
      freshTransferId freshOutboxId).1.broker = st.broker ∧
    DEFAULT_SAGA_TIMEOUT_MS = 60000 := by
  refine ⟨rfl, rfl, rfl, rfl, rfl, rfl, rfl, ⟨_, rfl, rfl, rfl, rfl, rfl⟩, rfl, rfl⟩

/-- Witness for C7 at concrete distinct wallet ids and amount 500. -/
theorem claim_C7_create_transfer_witness :
    ("0191aaaa-0000-7000-8000-000000000001" : String) ≠
      "0191aaaa-0000-7000-8000-000000000002" ∧ (0 : Int) < 500 ∧
    (createTransfer ⟨[], [], []⟩ "0191aaaa-0000-7000-8000-000000000001"
      "0191aaaa-0000-7000-8000-000000000002" 500 DEFAULT_SAGA_TIMEOUT_MS 1000
      "tr7" "ob7").2.status = TransferStatus.PENDING ∧
    (createTransfer ⟨[], [], []⟩ "0191aaaa-0000-7000-8000-000000000001"
      "0191aaaa-0000-7000-8000-000000000002" 500 DEFAULT_SAGA_TIMEOUT_MS 1000
      "tr7" "ob7").2.timeoutAt = 1000 + DEFAULT_SAGA_TIMEOUT_MS :=
  have h := claim_C7_create_transfer ⟨[], [], []⟩ "0191aaaa-0000-7000-8000-000000000001"
    "0191aaaa-0000-7000-8000-000000000002" 500 DEFAULT_SAGA_TIMEOUT_MS 1000 "tr7" "ob7"
    (by decide) (by decide)
  ⟨by decide, by decide, h.2.1, h.2.2.1⟩

/-- Character 14 of a stringified UUID is the high nibble of byte 6 (the
version nibble). -/
theorem stringifyUuid_char14 (bs : List Nat) :
    (stringifyUuid bs).data.get? 14 = some (hexDigit ((bs.getD 6 0) / 16 % 16)) := rfl

/-- The version nibble of every generated refund transaction id renders as
the character 5, whatever the SHA-1 digest is. -/
theorem generateRefundTransactionId_char14 (t : String) :
    (generateRefundTransactionId t).data.get? 14 = some '5' := by
  unfold generateRefundTransactionId uuidv5
  generalize hfin : (chunks64 (sha1Pad (parseUuidBytes REFUND_NAMESPACE ++
    utf8Bytes ("refund:" ++ t)))).foldl sha1Block sha1Init = fin
  cases fin with
  | mk a b c d e =>
    unfold sha1
    rw [hfin]
    rw [stringifyUuid_char14]
    have h6 : (setVersionVariant ((sha1Out ⟨a, b, c, d, e⟩).take 16)).getD 6 0 =
        ((b >>> 8 % 256) &&& 15) ||| 80 := rfl
    rw [h6]
    have hlt : (b >>> 8 % 256) &&& 15 < 16 := Nat.lt_succ_of_le Nat.and_le_right
    have hall : ∀ y, y < 16 → hexDigit ((y ||| 80) / 16 % 16) = '5' := by decide
    rw [hall _ hlt]

/-- C5: the refund transaction id is the same pure function of the
transferId in the retry path and in the DLQ replay path (so retries,
redeliveries, DLQ replays and timeout-driven compensation all derive the
same id), its rendered version nibble is always the character 5, and it
differs from the transferId itself, whose version-7 (time-ordered UUID)
format puts the character 7 at index 14. -/
theorem claim_C5_refund_id (t : String) (hv7 : t.data.get? 14 = some '7') :
    refundTxnIdRetryPath t = refundTxnIdReplayPath t ∧
    (generateRefundTransactionId t).data.get? 14 = some '5' ∧
    generateRefundTransactionId t ≠ t := by
  refine ⟨rfl, generateRefundTransactionId_char14 t, ?_⟩
  intro heq
  have h5 := generateRefundTransactionId_char14 t
  rw [heq, hv7] at h5
  exact absurd h5 (by simp)

/-- Witness for C5 at a concrete version-7 transfer id. -/
theorem claim_C5_refund_id_witness :
    refundTxnIdRetryPath "01924f0a-5f2b-7cc3-8d2e-3a5b6c7d8e9f" =
      refundTxnIdReplayPath "01924f0a-5f2b-7cc3-8d2e-3a5b6c7d8e9f" ∧
    (generateRefundTransactionId "01924f0a-5f2b-7cc3-8d2e-3a5b6c7d8e9f").data.get? 14 =
      some '5' ∧
    generateRefundTransactionId "01924f0a-5f2b-7cc3-8d2e-3a5b6c7d8e9f" ≠
      "01924f0a-5f2b-7cc3-8d2e-3a5b6c7d8e9f" :=
  claim_C5_refund_id "01924f0a-5f2b-7cc3-8d2e-3a5b6c7d8e9f" (by decide)

/-- When every attempt fails, the retry loop runs all attempts and returns
the last error. -/
theorem retryRun_all_errors {α : Type} (outcomes : Nat → Except RefundError α)
    (errs : Nat → RefundError) (h : ∀ i, outcomes i = .error (errs i)) :
    ∀ k i, retryRun outcomes i k = (.error (errs (i + k)), i + k + 1) := by
  intro k
  induction k with
  | zero =>
      intro i
      unfold retryRun
      rw [h i]
      rfl
  | succ n ih =>
      intro i
      unfold retryRun
      rw [h i]
      show retryRun outcomes (i + 1) n = _
      rw [ih (i + 1)]
      have harith : i + 1 + n = i + (n + 1) := by omega
      rw [harith]

/-- Store for the C8 counterexample: no wallets, so the refund throws the
business error WalletNotFound on every attempt. -/
def c8Store : WalletStore := { wallets := [], ledger := [], outbox := [] }

/-- Event for the C8 counterexample. -/
def c8Event : WalletCreditFailedEvent :=
  { transferId := "tr8", walletId := "w2", reason := "credit failed"
    senderWalletId := "w1", amount := 100, timestamp := 0 }

/-- Counterexample to C8 as stated: a refund failing with the business
error WalletNotFound is executed 1 + maxAttempts = 4 times before reaching
the DLQ, not routed there straight away without retries; the retry
configuration has no error filter, so business errors are retried exactly
like transient ones. -/
theorem claim_C8_counterexample :
    (performRefundWithRetry c8Store c8Event (fun _ => AttemptEnv.normal) "e" "o" 0).1 =
      .error (.business (.walletNotFound "w1")) ∧
    (performRefundWithRetry c8Store c8Event (fun _ => AttemptEnv.normal) "e" "o" 0).2 = 4 ∧
    (4 : Nat) ≠ 1 := by
  refine ⟨?_, ?_, by decide⟩ <;>
    · have h := retryRun_all_errors
        (fun i => attemptRefund c8Store c8Event AttemptEnv.normal "e" "o" 0)
        (fun _ => .business (.walletNotFound "w1"))
        (fun i => by rfl) RETRY_CONFIG.maxAttempts 0
      simp only [performRefundWithRetry]
      rw [h]
      try rfl

/-- C8 as amended: the refund retry has the literal exponential
configuration (maxAttempts 3, initial delay 100 ms, multiplier 2, cap
2000 ms), it retries every thrown error (the configuration carries no error
filter, so business errors are retried exactly like transient store
errors), a retried attempt that succeeds produces no dead letter, and on
exhaustion a DeadLetter row is appended with the original topic
wallet.credit-failed, the original payload, the final error message and
stack, attemptCount = maxAttempts, in status PENDING. -/
theorem claim_C8_retry_dlq (wst : WalletStore) (dlq : List DeadLetter)
    (event : WalletCreditFailedEvent) (envs : Nat → AttemptEnv) (errStack : Option String)
    (freshEntryId freshOutboxId freshDlqId : String) (now : Nat) :
    RETRY_CONFIG = { maxAttempts := 3, backOff := 100, multiplier := 2, maxInterval := 2000 } ∧
    (retryDelay RETRY_CONFIG 0 = 100 ∧ retryDelay RETRY_CONFIG 1 = 200 ∧
      retryDelay RETRY_CONFIG 2 = 400) ∧
    (∀ (outcomes : Nat → Except RefundError (WalletStore × DebitCreditResult))
        (e : RefundError) (r : WalletStore × DebitCreditResult),
      outcomes 0 = .error e → outcomes 1 = .ok r →
      (retryRun outcomes 0 RETRY_CONFIG.maxAttempts).1 = .ok r) ∧
    (∀ wst1 r,
      (performRefundWithRetry wst event envs freshEntryId freshOutboxId now).1 =
        .ok (wst1, r) →
      handleWalletCreditFailedLedger wst dlq event envs errStack freshEntryId
        freshOutboxId freshDlqId now = (wst1, dlq)) ∧
    (∀ errs : Nat → RefundError,
      (∀ i, attemptRefund wst event (envs i) freshEntryId freshOutboxId now =
        .error (errs i)) →
      handleWalletCreditFailedLedger wst dlq event envs errStack freshEntryId
        freshOutboxId freshDlqId now =
        (wst, dlq ++ [{ id := freshDlqId, originalTopic := "wallet.credit-failed"
                        originalPayload := .walletCreditFailed event
                        errorMessage := refundErrorMessage (errs RETRY_CONFIG.maxAttempts)
                        errorStack := errStack, attemptCount := RETRY_CONFIG.maxAttempts
                        firstAttemptAt := now, lastAttemptAt := now
                        status := DeadLetterStatus.PENDING, processedAt := none
                        createdAt := now }])) := by
  refine ⟨rfl, ⟨rfl, rfl, rfl⟩, ?_, ?_, ?_⟩
  · intro outcomes e r h0 h1
    unfold retryRun
    rw [h0]
    unfold retryRun
    rw [h1]
    rfl
  · intro wst1 r hok
    unfold handleWalletCreditFailedLedger
    rw [hok]
  · intro errs hall
    have h := retryRun_all_errors
      (fun i => attemptRefund wst event (envs i) freshEntryId freshOutboxId now)
      errs hall RETRY_CONFIG.maxAttempts 0
    unfold handleWalletCreditFailedLedger
    unfold performRefundWithRetry
    rw [h]
    simp [routeToDlq]

/-- Witness for C8 as amended, at a concrete store, event and transient
environment. -/
theorem claim_C8_retry_dlq_witness :
    RETRY_CONFIG = { maxAttempts := 3, backOff := 100, multiplier := 2, maxInterval := 2000 } ∧
    (retryDelay RETRY_CONFIG 0 = 100 ∧ retryDelay RETRY_CONFIG 1 = 200 ∧
      retryDelay RETRY_CONFIG 2 = 400) ∧
    (∀ (outcomes : Nat → Except RefundError (WalletStore × DebitCreditResult))
        (e : RefundError) (r : WalletStore × DebitCreditResult),
      outcomes 0 = .error e → outcomes 1 = .ok r →
      (retryRun outcomes 0 RETRY_CONFIG.maxAttempts).1 = .ok r) ∧
    (∀ wst1 r,
      (performRefundWithRetry c8Store c8Event
        (fun _ => AttemptEnv.transient "connection lost") "e" "o" 0).1 = .ok (wst1, r) →
      handleWalletCreditFailedLedger c8Store [] c8Event
        (fun _ => AttemptEnv.transient "connection lost") none "e" "o" "d" 0 = (wst1, [])) ∧
    (∀ errs : Nat → RefundError,
      (∀ i, attemptRefund c8Store c8Event
        ((fun _ => AttemptEnv.transient "connection lost") i) "e" "o" 0 =
        .error (errs i)) →
      handleWalletCreditFailedLedger c8Store [] c8Event
        (fun _ => AttemptEnv.transient "connection lost") none "e" "o" "d" 0 =
        (c8Store, [] ++ [{ id := "d", originalTopic := "wallet.credit-failed"
                           originalPayload := .walletCreditFailed c8Event
                           errorMessage := refundErrorMessage (errs RETRY_CONFIG.maxAttempts)
                           errorStack := none, attemptCount := RETRY_CONFIG.maxAttempts
                           firstAttemptAt := 0, lastAttemptAt := 0
                           status := DeadLetterStatus.PENDING, processedAt := none
                           createdAt := 0 }])) :=
  claim_C8_retry_dlq c8Store [] c8Event (fun _ => AttemptEnv.transient "connection lost")
    none "e" "o" "d" 0

/-- Every record the publisher selects is an unpublished member of the
outbox table. -/
theorem selectOutboxBatch_mem (outbox : List OutboxRecord) (e : OutboxRecord)
    (he : e ∈ selectOutboxBatch outbox) : e ∈ outbox ∧ e.publishedAt = none := by
  simp only [selectOutboxBatch] at he
  have h2 := (List.take_sublist _ _).subset he
  rw [List.mem_mergeSort] at h2
  rw [List.mem_filter] at h2
  refine ⟨h2.1, ?_⟩
  have h3 := h2.2
  simpa using h3

/-- The bulk-update id list only names unpublished selected records whose
emission succeeded. -/
theorem publishedIds_spec (outbox : List OutboxRecord) (publishOk : String → Bool)
    (id : String)
    (h : (((selectOutboxBatch outbox).filter (fun e => publishOk e.id)).map
      (fun e => e.id)).contains id = true) :
    ∃ e1 ∈ outbox, e1.id = id ∧ e1.publishedAt = none ∧ publishOk id = true := by
  rw [List.contains_eq_any_beq] at h
  simp only [List.any_eq_true, beq_iff_eq] at h
  obtain ⟨x, hx, hxid⟩ := h
  rw [List.mem_map] at hx
  obtain ⟨e1, he1, rfl⟩ := hx
  rw [List.mem_filter] at he1
  obtain ⟨hsel, hok⟩ := he1
  obtain ⟨hmem, hnone⟩ := selectOutboxBatch_mem outbox e1 hsel
  subst hxid
  exact ⟨e1, hmem, rfl, hnone, hok⟩

/-- The outbox table after a publisher tick: unchanged, or the image of the
bulk update marking the successfully published ids. -/
theorem processOutbox_fst (outbox : List OutboxRecord) (broker : List BrokerMessage)
    (publishOk : String → Bool) (now : Nat) :
    (processOutbox outbox broker publishOk now).1 = outbox ∨
    (processOutbox outbox broker publishOk now).1 =
      outbox.map (fun e =>
        if (((selectOutboxBatch outbox).filter (fun e2 => publishOk e2.id)).map
            (fun e2 => e2.id)).contains e.id
        then { e with publishedAt := some now } else e) := by
  unfold processOutbox
  by_cases hempty : (selectOutboxBatch outbox).isEmpty = true
  · simp [hempty]
  · by_cases hany : 0 < ((selectOutboxBatch outbox).filter (fun e2 => publishOk e2.id)).length
    · right
      simp [hempty, hany]
    · left
      have hfil : (selectOutboxBatch outbox).filter (fun e2 => publishOk e2.id) = [] :=
        List.length_eq_zero.mp (by omega)
      simp [hempty, hfil]

/-- C9: the publisher selects only records with publishedAt NULL, ordered
by createdAt ascending and bounded by the batch size; the tick leaves every
already-published record exactly as it was (publishedAt moves from NULL to
a set value at most once and never back), marks with the current time only
unpublished records whose emission succeeded, and records whose emission
failed stay exactly as they were, publishedAt NULL, still satisfying the
selection predicate of the next tick. -/
theorem claim_C9_publishedAt_monotonic (outbox : List OutboxRecord)
    (broker : List BrokerMessage) (publishOk : String → Bool) (now : Nat)
    (hids : (outbox.map (fun e => e.id)).Nodup) :
    (∀ e ∈ selectOutboxBatch outbox, e ∈ outbox ∧ e.publishedAt = none) ∧
    (selectOutboxBatch outbox).length ≤ OUTBOX_BATCH_SIZE ∧
    (selectOutboxBatch outbox).Pairwise (fun a b => a.createdAt ≤ b.createdAt) ∧
    (processOutbox outbox broker publishOk now).1.length = outbox.length ∧
    (∀ i e, outbox.get? i = some e →
      (∀ t, e.publishedAt = some t →
        (processOutbox outbox broker publishOk now).1.get? i = some e) ∧
      ((processOutbox outbox broker publishOk now).1.get? i = some e ∨
        (e.publishedAt = none ∧ publishOk e.id = true ∧
          (processOutbox outbox broker publishOk now).1.get? i =
            some { e with publishedAt := some now })) ∧
      (e.publishedAt = none ∧ publishOk e.id = false →
        (processOutbox outbox broker publishOk now).1.get? i = some e)) := by
  refine ⟨fun e he => selectOutboxBatch_mem outbox e he, ?_, ?_, ?_, ?_⟩
  · simp only [selectOutboxBatch]
    exact List.length_take_le OUTBOX_BATCH_SIZE _
  · simp only [selectOutboxBatch]
    refine List.Pairwise.sublist (List.take_sublist OUTBOX_BATCH_SIZE _) ?_
    have hs := @List.sorted_mergeSort OutboxRecord
      (fun a b : OutboxRecord => decide (a.createdAt ≤ b.createdAt))
      (fun a b c h1 h2 => by
        simp only [decide_eq_true_eq] at h1 h2 ⊢
        omega)
      (fun a b => by
        simp only [Bool.or_eq_true, decide_eq_true_eq]
        exact Nat.le_total a.createdAt b.createdAt)
      (outbox.filter (fun e => e.publishedAt == none))
    exact hs.imp (by intro a b h; simpa using h)
  · rcases processOutbox_fst outbox broker publishOk now with h | h <;> simp [h]
  · intro i e hie
    rcases processOutbox_fst outbox broker publishOk now with h | h
    · rw [h]
      exact ⟨fun t _ => hie, Or.inl hie, fun _ => hie⟩
    · have hmem : e ∈ outbox := List.get?_mem hie
      by_cases hc : (((selectOutboxBatch outbox).filter (fun e2 => publishOk e2.id)).map
          (fun e2 => e2.id)).contains e.id = true
      · obtain ⟨e1, hm1, hid, hnone, hok⟩ := publishedIds_spec outbox publishOk e.id hc
        have he1 : e1 = e := List.inj_on_of_nodup_map hids hm1 hmem hid
        rw [he1] at hnone
        refine ⟨?_, ?_, ?_⟩
        · intro t ht
          rw [hnone] at ht
          exact absurd ht (by simp)
        · right
          refine ⟨hnone, hok, ?_⟩
          rw [h, List.get?_map, hie]
          simp only [Option.map_some']
          rw [if_pos hc]
        · intro hcond
          rw [hcond.2] at hok
          exact absurd hok (by simp)
      · refine ⟨fun t _ => ?_, Or.inl ?_, fun _ => ?_⟩ <;>
          (rw [h, List.get?_map, hie]
           simp only [Option.map_some']
           rw [if_neg hc])

/-- Concrete outbox table for the C9 witness: one unpublished record whose
emission succeeds, one unpublished record whose emission fails, one already
published record. -/
def c9WitnessOutbox : List OutboxRecord :=
  [{ id := "o1", aggregateType := OutboxAggregateType.TRANSFER, aggregateId := "tr1"
     eventType := OutboxEventType.TRANSFER_INITIATED
     payload := .transferCompleted { transferId := "tr1", timestamp := 0 }
     createdAt := 1, publishedAt := none },
   { id := "o2", aggregateType := OutboxAggregateType.TRANSFER, aggregateId := "tr2"
     eventType := OutboxEventType.TRANSFER_FAILED
     payload := .transferCompleted { transferId := "tr2", timestamp := 0 }
     createdAt := 2, publishedAt := none },
   { id := "o3", aggregateType := OutboxAggregateType.TRANSFER, aggregateId := "tr3"
     eventType := OutboxEventType.TRANSFER_COMPLETED
     payload := .transferCompleted { transferId := "tr3", timestamp := 0 }
     createdAt := 0, publishedAt := some 3 }]

/-- Emission oracle for the C9 witness: only the record o1 publishes. -/
def c9PublishOk (id : String) : Bool := id == "o1"

/-- Witness for C9 at the concrete outbox table. -/
theorem claim_C9_publishedAt_monotonic_witness :
    (∀ e ∈ selectOutboxBatch c9WitnessOutbox, e ∈ c9WitnessOutbox ∧ e.publishedAt = none) ∧
    (selectOutboxBatch c9WitnessOutbox).length ≤ OUTBOX_BATCH_SIZE ∧
    (selectOutboxBatch c9WitnessOutbox).Pairwise (fun a b => a.createdAt ≤ b.createdAt) ∧
    (processOutbox c9WitnessOutbox [] c9PublishOk 9).1.length = c9WitnessOutbox.length ∧
    (∀ i e, c9WitnessOutbox.get? i = some e →
      (∀ t, e.publishedAt = some t →
        (processOutbox c9WitnessOutbox [] c9PublishOk 9).1.get? i = some e) ∧
      ((processOutbox c9WitnessOutbox [] c9PublishOk 9).1.get? i = some e ∨
        (e.publishedAt = none ∧ c9PublishOk e.id = true ∧
          (processOutbox c9WitnessOutbox [] c9PublishOk 9).1.get? i =
            some { e with publishedAt := some 9 })) ∧
      (e.publishedAt = none ∧ c9PublishOk e.id = false →
        (processOutbox c9WitnessOutbox [] c9PublishOk 9).1.get? i = some e)) :=
  claim_C9_publishedAt_monotonic c9WitnessOutbox [] c9PublishOk 9 (by decide)

/-- C10: DLQ replay of an entry already PROCESSED returns success without
touching the dead-letter table, the wallet store or the broker; replay of
an entry whose original topic is anything other than wallet.credit-failed
throws the unsupported-topic error, which marks the entry FAILED and
returns success = false, leaving wallet and broker state untouched. -/
theorem claim_C10_dlq_replay (dlq : List DeadLetter) (wst : WalletStore)
    (broker : List BrokerMessage) (id freshEntryId : String) (now : Nat)
    (entry : DeadLetter) (hfind : dlq.find? (fun d => d.id == id) = some entry) :
    (entry.status = DeadLetterStatus.PROCESSED →
      dlqReplay dlq wst broker id freshEntryId now =
        .ok (dlq, wst, broker, { success := true, message := "Entry already processed" })) ∧
    (entry.status ≠ DeadLetterStatus.PROCESSED →
      entry.originalTopic ≠ "wallet.credit-failed" →
      dlqReplay dlq wst broker id freshEntryId now =
        .ok (dlqUpdateStatus dlq id DeadLetterStatus.FAILED none, wst, broker,
          { success := false
            message := "Replay failed: " ++
              ("Unsupported topic for replay: " ++ entry.originalTopic) })) := by
  constructor
  · intro hp
    unfold dlqReplay
    simp only [hfind]
    rw [if_pos (show (entry.status == DeadLetterStatus.PROCESSED) = true by simp [hp])]
  · intro hnp hnt
    unfold dlqReplay
    simp only [hfind]
    rw [if_neg (show ¬(entry.status == DeadLetterStatus.PROCESSED) = true by simp [hnp])]
    unfold handleReplay
    rw [if_neg hnt]

/-- Concrete dead-letter table for the C10 witness: a PENDING entry whose
original topic is not replayable. -/
def c10WitnessDlq : List DeadLetter :=
  [{ id := "d1", originalTopic := "wallet.debited"
     originalPayload := .transferCompleted { transferId := "tr1", timestamp := 0 }
     errorMessage := "boom", errorStack := none, attemptCount := 3
     firstAttemptAt := 0, lastAttemptAt := 0, status := DeadLetterStatus.PENDING
     processedAt := none, createdAt := 0 }]

/-- Witness for C10 at the concrete dead-letter table. -/
theorem claim_C10_dlq_replay_witness :
    (({ id := "d1", originalTopic := "wallet.debited"
        originalPayload := .transferCompleted { transferId := "tr1", timestamp := 0 }
        errorMessage := "boom", errorStack := none, attemptCount := 3
        firstAttemptAt := 0, lastAttemptAt := 0, status := DeadLetterStatus.PENDING
        processedAt := none, createdAt := 0 } : DeadLetter).status =
          DeadLetterStatus.PROCESSED →
      dlqReplay c10WitnessDlq ⟨[], [], []⟩ [] "d1" "e1" 5 =
        .ok (c10WitnessDlq, ⟨[], [], []⟩, [],
          { success := true, message := "Entry already processed" })) ∧
    (({ id := "d1", originalTopic := "wallet.debited"
        originalPayload := .transferCompleted { transferId := "tr1", timestamp := 0 }
        errorMessage := "boom", errorStack := none, attemptCount := 3
        firstAttemptAt := 0, lastAttemptAt := 0, status := DeadLetterStatus.PENDING
        processedAt := none, createdAt := 0 } : DeadLetter).status ≠
          DeadLetterStatus.PROCESSED →
      ({ id := "d1", originalTopic := "wallet.debited"
         originalPayload := .transferCompleted { transferId := "tr1", timestamp := 0 }
         errorMessage := "boom", errorStack := none, attemptCount := 3
         firstAttemptAt := 0, lastAttemptAt := 0, status := DeadLetterStatus.PENDING
         processedAt := none, createdAt := 0 } : DeadLetter).originalTopic ≠
          "wallet.credit-failed" →
      dlqReplay c10WitnessDlq ⟨[], [], []⟩ [] "d1" "e1" 5 =
        .ok (dlqUpdateStatus c10WitnessDlq "d1" DeadLetterStatus.FAILED none,
          ⟨[], [], []⟩, [],
          { success := false
            message := "Replay failed: " ++
              ("Unsupported topic for replay: " ++ "wallet.debited") })) :=
  claim_C10_dlq_replay c10WitnessDlq ⟨[], [], []⟩ [] "d1" "e1" 5 _ (by decide)
